import Mathlib

/-!
# Verification of the LudoWithPowerUps game engine

Shallow embedding of the rules engine (`src/store/gameStore.ts`) and its board
geometry helpers (`src/utils/boardUtils.ts`) in Lean 4, together with theorems
settling the specification claims about dice resolution, token movement,
home-stretch entry, capture resolution, the power-up economy and its pending
requests.

Modelling conventions:
* JavaScript numbers are modelled as `Int` (all arithmetic in the engine is
  integer arithmetic); `%` on nonnegative operands is `Int.emod`, which agrees
  with the JavaScript remainder there.
* `Record<TokenId, Token>` / `Record<string, PowerUp>` objects are modelled as
  lists in insertion order; `Object.keys(...).find` is `List.find?`, keyed
  assignment is an order-preserving map, `delete` is a filter.
* Each `Math.random()` draw is passed to the operation as an explicit
  parameter (a rational in `[0,1)`, a chosen index, a generated power-up, or a
  shuffling function); the `Reachable` relation constrains those parameters to
  exactly the outcomes the source can produce.
* Zustand's `set` merges a partial record into the current store state; it is
  modelled as a record update.  The `setTimeout`-delayed `nextTurn` call after
  entering the `SKIPPING` phase is an asynchronous caller-side step and is
  modelled as a separate `nextTurn` transition.
-/

inductive TokenStatus where
  | BASE
  | ACTIVE
  | HOME_STRETCH
  | FINISHED
deriving DecidableEq, Repr

inductive GamePhase where
  | SETUP
  | ROLLING
  | MOVING
  | POWERUP_SELECTION
  | POWERUP_DISCARD
  | ANIMATING
  | SKIPPING
deriving DecidableEq, Repr

inductive PowerUpType where
  | SHIELD
  | REVERSE
  | SWAP
  | TELEPORT
  | DOUBLE_MOVE
  | EXACT_MOVE
  | WARP
  | BACKWARDS_DASH
  | SEND_BACK
  | FREEZE
  | STEAL_POWERUP
  | MAGNET
  | IMMUNITY
  | PHASE
  | SAFE_PASSAGE
  | EXTRA_TURN
  | BONUS_ROLL
  | DICE_LOCK
  | SWAP_DICE
  | HOME_STRETCH_TELEPORT
deriving DecidableEq, Repr

structure PowerUp where
  id : String
  type : PowerUpType
deriving DecidableEq, Repr

structure Player where
  id : String
  name : String
  color : String
  powerUps : List PowerUp
deriving DecidableEq, Repr

structure Token where
  id : String
  playerId : String
  position : Int
  status : TokenStatus
  isInvulnerable : Bool
  shieldTurnsRemaining : Int
  isReversed : Bool
  frozenTurnsRemaining : Int
  isPhased : Bool
  phasedTurnsRemaining : Int
  isImmune : Bool
  immunityTurnsRemaining : Int
  doubleMoveNext : Bool
  exactMoveValue : Option Int
  safePassageMovesRemaining : Int
deriving DecidableEq, Repr

structure BoardConfig where
  playerCount : Int
deriving DecidableEq, Repr

structure PendingCollection where
  position : Int
  playerId : String
deriving DecidableEq, Repr

structure PendingSelection where
  powerUpType : PowerUpType
  powerUpIndex : Int
  playerId : String
deriving DecidableEq, Repr

structure GameState where
  players : List Player
  tokens : List Token
  currentPlayerIndex : Int
  diceRoll : Option Int
  phase : GamePhase
  boardConfig : BoardConfig
  powerUpsOnBoard : List (Int × PowerUp)
  powerUpUsedThisTurn : Bool
  turnCount : Int
  pendingPowerUpCollection : Option PendingCollection
  pendingPowerUpSelection : Option PendingSelection
deriving DecidableEq, Repr

/-! ## Generic helpers for the JavaScript data structures -/

/-- JavaScript array indexing `arr[i]`: `undefined` (`none`) for a negative or
out-of-range index. -/
def jsGet (l : List α) (i : Int) : Option α :=
  if 0 ≤ i then l[i.toNat]? else none

/-- JavaScript `Array.prototype.indexOf`: the first index of `x`, `-1` if absent. -/
def jsIndexOf (l : List Int) (x : Int) : Int :=
  match l.findIdx? (· == x) with
  | some i => (i : Int)
  | none => -1

/-- Lookup `tokens[tokenId]` in the token record (a list in insertion order). -/
def getToken (tokens : List Token) (tokenId : String) : Option Token :=
  tokens.find? (fun t => t.id == tokenId)

/-- Keyed assignment `newTokens[tokenId] = t`: replace the entry with that id,
preserving insertion order (all assigned ids exist in the record). -/
def setTok (tokens : List Token) (tokenId : String) (t : Token) : List Token :=
  tokens.map (fun u => if u.id == tokenId then t else u)

/-- Lookup `powerUpsOnBoard[pos.toString()]`. -/
def lookupPU (m : List (Int × PowerUp)) (k : Int) : Option PowerUp :=
  (m.find? (fun kv => kv.1 == k)).map (·.2)

/-- Keyed assignment into the board power-up record: overwrite an existing key
in place, otherwise append (JavaScript object insertion order). -/
def recordSetPU (m : List (Int × PowerUp)) (k : Int) (v : PowerUp) : List (Int × PowerUp) :=
  if m.any (fun kv => kv.1 == k) then
    m.map (fun kv => if kv.1 == k then (k, v) else kv)
  else
    m ++ [(k, v)]

/-- `delete powerUpsOnBoard[key]`, preserving the order of the other entries. -/
def removePU (m : List (Int × PowerUp)) (k : Int) : List (Int × PowerUp) :=
  m.filter (fun kv => kv.1 != k)

/-! ## Board geometry helpers (`src/utils/boardUtils.ts`) -/

def getTrackLength (playerCount : Int) : Int :=
  if playerCount = 4 then 52 else 13 * playerCount

/-- `getStartPosition`.  A negative or out-of-range player index falls back to
`playerIndex * 13` via the `??` operator, as in the source. -/
def getStartPosition (playerIndex : Int) (playerCount : Int) : Int :=
  if playerCount = 4 then
    (jsGet [0, 13, 39, 26] playerIndex).getD (playerIndex * 13)
  else
    playerIndex * 13

/-- `getTurningIndex`: where each player leaves the main track for the home
stretch (Red 50, Green 11, Blue 37, Yellow 24); `?? 0` for other indices. -/
def getTurningIndex (playerIndex : Int) (playerCount : Int) : Int :=
  if playerCount = 4 then
    (jsGet [50, 11, 37, 24] playerIndex).getD 0
  else
    0

/-- `getSkippedIndex`: the square after the turning index that the player's
tokens bypass (Red 51, Green 12, Blue 38, Yellow 25). -/
def getSkippedIndex (playerIndex : Int) (playerCount : Int) : Int :=
  if playerCount = 4 then
    (jsGet [51, 12, 38, 25] playerIndex).getD 0
  else
    0

/-- `isSafeZone`: start squares and star squares for the 4-player board,
otherwise any player's start position. -/
def isSafeZone (position : Int) (playerCount : Int) : Bool :=
  if playerCount = 4 then
    [0, 13, 39, 26].contains position || [8, 21, 34, 47].contains position
  else
    (List.range playerCount.toNat).any
      (fun i => position == getStartPosition (i : Int) playerCount)

/-- `isPowerUpZone` (current version: safe zones also spawn power-ups, plus
`pos % 13 == 4` squares and fixed quadrant-scattered squares). -/
def isPowerUpZone (position : Int) (playerCount : Int) : Bool :=
  if playerCount = 4 then
    if [0, 8, 13, 21, 26, 34, 39, 47].contains position then true
    else if position % 13 == 4 then true
    else [2, 3, 5, 6, 15, 16, 18, 19, 28, 29, 31, 32, 41, 42, 44, 45].contains position
  else
    position % 13 == 4

/-- `getPowerUpSpawnPositions`: all power-up-eligible squares. -/
def getPowerUpSpawnPositions (playerCount : Int) : List Int :=
  if playerCount = 4 then
    [0, 8, 13, 21, 26, 34, 39, 47] ++
      [2, 3, 4, 5, 6, 15, 16, 17, 18, 19, 28, 29, 30, 31, 32, 41, 42, 43, 44, 45]
  else
    ((List.range (getTrackLength playerCount).toNat).map (Int.ofNat)).filter
      (fun i => isPowerUpZone i playerCount)

/-- `getRandomPowerUpSpawnPositions`: shuffle the unoccupied eligible positions
and take the first `count`.  The random shuffle is passed in as an explicit
function; the `Reachable` relation requires it to permute its argument. -/
def getRandomPowerUpSpawnPositions (shuffle : List Int → List Int) (count : Nat)
    (playerCount : Int) (excludePositions : List Int) : List Int :=
  let allPositions := getPowerUpSpawnPositions playerCount
  let available := allPositions.filter (fun pos => !(excludePositions.contains pos))
  let shuffled := shuffle available
  shuffled.take (min count shuffled.length)

/-! ## Engine commands (`src/store/gameStore.ts`) -/

/-- The 20 power-up types in the order of the `types` array in the source. -/
def powerUpTypes : List PowerUpType :=
  [.SHIELD, .REVERSE, .SWAP,
   .TELEPORT, .DOUBLE_MOVE, .EXACT_MOVE, .WARP, .BACKWARDS_DASH,
   .SEND_BACK, .FREEZE, .STEAL_POWERUP, .MAGNET,
   .IMMUNITY, .PHASE, .SAFE_PASSAGE,
   .EXTRA_TURN, .BONUS_ROLL, .DICE_LOCK,
   .SWAP_DICE, .HOME_STRETCH_TELEPORT]

/-- `generatePowerUp`: the two `Math.random()` draws are explicit — `r` is
`Math.floor(random * types.length)` (so `r < 20` for a real draw) and `rid`
the random id string. -/
def generatePowerUp (r : Nat) (rid : String) : PowerUp :=
  { id := rid, type := (powerUpTypes[r]?).getD .SHIELD }

/-- `spawnPowerUpOnBoard(position)`: the internal `generatePowerUp()` call is
modelled by the explicit `pu` parameter. -/
def spawnPowerUpOnBoard (pu : PowerUp) (position : Int) (s : GameState) : GameState :=
  { s with powerUpsOnBoard := recordSetPU s.powerUpsOnBoard position pu }

/-- The `newPositions.forEach(pos => get().spawnPowerUpOnBoard(pos))` loop:
spawns one generated power-up per position, consuming the generator stream in
order starting at index `i`. -/
def spawnEach (gen : Nat → PowerUp) (i : Nat) : List Int → GameState → GameState
  | [], s => s
  | pos :: rest, s => spawnEach gen (i + 1) rest (spawnPowerUpOnBoard (gen i) pos s)

/-- `respawnPowerUps`: if fewer than 8 power-ups are on the board, spawn up to 2
more at random unoccupied eligible positions. -/
def respawnPowerUps (shuffle : List Int → List Int) (gen : Nat → PowerUp)
    (s : GameState) : GameState :=
  let occupiedPositions := s.powerUpsOnBoard.map Prod.fst
  let maxPowerUps := 8
  let currentCount := s.powerUpsOnBoard.length
  if currentCount < maxPowerUps then
    let spawnCount := min 2 (maxPowerUps - currentCount)
    let newPositions :=
      getRandomPowerUpSpawnPositions shuffle spawnCount s.boardConfig.playerCount
        occupiedPositions
    spawnEach gen 0 newPositions s
  else s

/-- `nextTurn`: clockwise seat permutation 0→1→3→2→0 for 4 players, sequential
otherwise; clears the die, resets the phase and the per-turn flag, increments
the turn counter, and every 4th turn runs a respawn pass (whose board changes
survive the final merge, as in the zustand store). -/
def nextTurn (shuffle : List Int → List Int) (gen : Nat → PowerUp)
    (s : GameState) : GameState :=
  let newTurnCount := s.turnCount + 1
  let nextPlayerIndex : Int :=
    if s.players.length = 4 then
      let clockwiseOrder : List Int := [0, 1, 3, 2]
      let currentIndexInOrder := jsIndexOf clockwiseOrder s.currentPlayerIndex
      let nextIndexInOrder := (currentIndexInOrder + 1) % (clockwiseOrder.length : Int)
      (jsGet clockwiseOrder nextIndexInOrder).getD 0
    else
      (s.currentPlayerIndex + 1) % (s.players.length : Int)
  let s1 := if newTurnCount % 4 = 0 then respawnPowerUps shuffle gen s else s
  { s1 with
    currentPlayerIndex := nextPlayerIndex
    diceRoll := none
    phase := .ROLLING
    powerUpUsedThisTurn := false
    turnCount := newTurnCount }

/-- `collectPowerUp(position, playerId)`: with a full (3-entry) inventory, do
not collect — record a pending discard request and force `POWERUP_DISCARD`;
otherwise append to the inventory and remove the power-up from the board. -/
def collectPowerUp (position : Int) (playerId : String) (s : GameState) : GameState :=
  match s.players.findIdx? (fun p => p.id == playerId) with
  | none => s
  | some playerIndex =>
    match s.players[playerIndex]? with
    | none => s
    | some player =>
      match lookupPU s.powerUpsOnBoard position with
      | none => s
      | some powerUp =>
        if player.powerUps.length ≥ 3 then
          { s with
            phase := .POWERUP_DISCARD
            pendingPowerUpCollection := some ⟨position, playerId⟩ }
        else
          { s with
            players := s.players.set playerIndex
              { player with powerUps := player.powerUps ++ [powerUp] }
            powerUpsOnBoard := removePU s.powerUpsOnBoard position }

/-- `discardPowerUp(playerId, powerUpIndex)`: splice out the indexed inventory
entry; if a collection was pending, re-attempt it, clear the pending request
and restore the `ROLLING` phase. -/
def discardPowerUp (playerId : String) (powerUpIndex : Int) (s : GameState) : GameState :=
  match s.players.findIdx? (fun p => p.id == playerId) with
  | none => s
  | some playerIndex =>
    match s.players[playerIndex]? with
    | none => s
    | some player =>
      if powerUpIndex < 0 ∨ powerUpIndex ≥ (player.powerUps.length : Int) then s
      else
        let newPowerUps := player.powerUps.eraseIdx powerUpIndex.toNat
        let s1 := { s with
          players := s.players.set playerIndex { player with powerUps := newPowerUps } }
        match s.pendingPowerUpCollection with
        | some pending =>
          let s2 := collectPowerUp pending.position pending.playerId s1
          { s2 with pendingPowerUpCollection := none, phase := .ROLLING }
        | none => s1

/-- The `playerTokens.some(...)` legal-move check shared by `setDiceRoll` and
`setDiceRollValue`: BASE needs a 6, ACTIVE always moves, HOME_STRETCH must not
overshoot (`position + roll ≤ 5`), FINISHED never moves. -/
def hasValidMove (playerTokens : List Token) (roll : Int) : Bool :=
  playerTokens.any (fun token =>
    match token.status with
    | .BASE => roll == 6
    | .ACTIVE => true
    | .HOME_STRETCH => decide (token.position + roll ≤ 5)
    | .FINISHED => false)

/-- `setDiceRoll`: the `Math.random()` draw is the explicit `u ∈ [0,1)`.  With
every current-player token in BASE the distribution is biased (6 on
`u < 0.25`, then 1–5 on consecutive intervals of length 0.15), otherwise
uniform (`Math.floor(u * 6) + 1`).  The `setTimeout` turn advance after
entering SKIPPING is a separate asynchronous `nextTurn` step. -/
def setDiceRoll (u : ℚ) (s : GameState) : GameState :=
  match jsGet s.players s.currentPlayerIndex with
  | none => s
  | some player =>
    let playerTokens := s.tokens.filter (fun t => t.playerId == player.id)
    let allTokensLocked :=
      decide (playerTokens.length > 0) && playerTokens.all (fun t => t.status == .BASE)
    let roll : Int :=
      if allTokensLocked then
        if u < 1/4 then 6
        else ⌊(u - 1/4) / (3/20)⌋ + 1
      else
        ⌊u * 6⌋ + 1
    let s1 := { s with powerUpUsedThisTurn := false }
    if hasValidMove playerTokens roll then
      { s1 with diceRoll := some roll, phase := .MOVING }
    else
      { s1 with diceRoll := some roll, phase := .SKIPPING }

/-- `setDiceRollValue(value)`: deterministic variant; values outside 1–6 are
rejected. -/
def setDiceRollValue (value : Int) (s : GameState) : GameState :=
  if value < 1 ∨ value > 6 then s
  else
    match jsGet s.players s.currentPlayerIndex with
    | none => s
    | some player =>
      let playerTokens := s.tokens.filter (fun t => t.playerId == player.id)
      let s1 := { s with powerUpUsedThisTurn := false }
      if hasValidMove playerTokens value then
        { s1 with diceRoll := some value, phase := .MOVING }
      else
        { s1 with diceRoll := some value, phase := .SKIPPING }

/-- The per-token body of the post-move counter-decrement loop
(`moveToken`, lines 393–424).  Faithful to the source's aliasing: each branch
reads the snapshot `t` taken at the top of the loop body, and the frozen,
phased and immunity branches spread from that stale snapshot (`{ ...t, ... }`),
discarding any update a previous branch wrote; only the shield-flag clear and
the safe-passage branch accumulate on the current entry. -/
def decayToken (t : Token) : Token :=
  let n1 :=
    if t.shieldTurnsRemaining > 0 then
      let updated := { t with shieldTurnsRemaining := t.shieldTurnsRemaining - 1 }
      if t.shieldTurnsRemaining - 1 ≤ 0 then { updated with isInvulnerable := false }
      else updated
    else t
  let n2 :=
    if t.frozenTurnsRemaining > 0 then
      { t with frozenTurnsRemaining := t.frozenTurnsRemaining - 1 }
    else n1
  let n3 :=
    if t.phasedTurnsRemaining > 0 then
      let updated := { t with phasedTurnsRemaining := t.phasedTurnsRemaining - 1 }
      if t.phasedTurnsRemaining - 1 ≤ 0 then { updated with isPhased := false }
      else updated
    else n2
  let n4 :=
    if t.immunityTurnsRemaining > 0 then
      let updated := { t with immunityTurnsRemaining := t.immunityTurnsRemaining - 1 }
      if t.immunityTurnsRemaining - 1 ≤ 0 then { updated with isImmune := false }
      else updated
    else n3
  if t.safePassageMovesRemaining > 0 then
    { n4 with safePassageMovesRemaining := t.safePassageMovesRemaining - 1 }
  else n4

/-- The shared tail of `moveToken`: decrement the current player's counters,
force `POWERUP_DISCARD` if a collection became pending, clear the die, and
advance the turn unless a bonus turn was granted or a collection is pending.
`s1` is the store state after any in-flight `collectPowerUp` call. -/
def finishMove (shuffle : List Int → List Int) (gen : Nat → PowerUp)
    (currentPlayerId : String) (s1 : GameState) (newTokens : List Token)
    (shouldEndTurn : Bool) : GameState :=
  let decayed := newTokens.map
    (fun t => if t.playerId == currentPlayerId then decayToken t else t)
  let finalPhase : GamePhase :=
    if s1.pendingPowerUpCollection.isSome then .POWERUP_DISCARD else .ROLLING
  let s2 := { s1 with tokens := decayed, phase := finalPhase, diceRoll := none }
  if shouldEndTurn && !s1.pendingPowerUpCollection.isSome then nextTurn shuffle gen s2
  else s2

/-- `moveToken(tokenId)`.  Guards: die present, token owned by the current
player, token not frozen.  BASE needs a 6 and exits to the start square with a
bonus turn; ACTIVE applies the double/exact/reverse modifiers, the
home-stretch-entry rule, capture resolution and power-up acquisition;
HOME_STRETCH advances in the lane and finishes at 5.  A FINISHED token falls
through the status dispatch but still runs the shared tail. -/
def moveToken (shuffle : List Int → List Int) (gen : Nat → PowerUp)
    (tokenId : String) (s : GameState) : GameState :=
  match getToken s.tokens tokenId, s.diceRoll with
  | some token, some diceRoll =>
    match jsGet s.players s.currentPlayerIndex with
    | none => s
    | some currentPlayer =>
      if token.playerId ≠ currentPlayer.id then s
      else if token.frozenTurnsRemaining > 0 then s
      else
        match token.status with
        | .BASE =>
          if diceRoll = 6 then
            let startPos := getStartPosition s.currentPlayerIndex s.boardConfig.playerCount
            finishMove shuffle gen currentPlayer.id s
              (setTok s.tokens tokenId { token with status := .ACTIVE, position := startPos })
              false
          else s
        | .ACTIVE =>
          let trackLen := getTrackLength s.boardConfig.playerCount
          let playerIndex : Int :=
            match s.players.findIdx? (fun p => p.id == token.playerId) with
            | some i => (i : Int)
            | none => -1
          let startPos := getStartPosition playerIndex s.boardConfig.playerCount
          let er1 : Int × List Token :=
            if token.doubleMoveNext then
              let cur := (getToken s.tokens tokenId).getD token
              (diceRoll * 2, setTok s.tokens tokenId { cur with doubleMoveNext := false })
            else (diceRoll, s.tokens)
          let er2 : Int × List Token :=
            match token.exactMoveValue with
            | some v =>
              let cur := (getToken er1.2 tokenId).getD token
              (v, setTok er1.2 tokenId { cur with exactMoveValue := none })
            | none => er1
          let effectiveRoll := er2.1
          let direction : Int := if token.isReversed then -1 else 1
          let newPos := (token.position + effectiveRoll * direction + trackLen) % trackLen
          let nt :=
            if token.isReversed then
              let cur := (getToken er2.2 tokenId).getD token
              setTok er2.2 tokenId { cur with isReversed := false }
            else er2.2
          let turningIndex := getTurningIndex playerIndex s.boardConfig.playerCount
          let skippedIndex := getSkippedIndex playerIndex s.boardConfig.playerCount
          let oldPos := token.position
          let entered : Bool × Int :=
            if direction = 1 ∧ token.isReversed = false then
              if oldPos = turningIndex then (true, effectiveRoll)
              else if oldPos = (turningIndex - 1 + trackLen) % trackLen then
                (if effectiveRoll ≥ 2 then (true, effectiveRoll - 1) else (false, 0))
              else if oldPos ≠ startPos ∧ oldPos ≠ turningIndex ∧ oldPos ≠ skippedIndex then
                let distanceToTurning := (turningIndex - oldPos + trackLen) % trackLen
                if distanceToTurning < effectiveRoll ∧ distanceToTurning > 0 then
                  (true, effectiveRoll - distanceToTurning)
                else (false, 0)
              else (false, 0)
            else (false, 0)
          if entered.1 then
            let remainingSteps := entered.2
            let homeStretchPos := max 0 (remainingSteps - 1)
            if homeStretchPos ≥ 5 ∨ remainingSteps ≥ 6 then
              finishMove shuffle gen currentPlayer.id s
                (setTok nt tokenId { token with status := .FINISHED, position := 5 }) true
            else
              finishMove shuffle gen currentPlayer.id s
                (setTok nt tokenId { token with status := .HOME_STRETCH, position := homeStretchPos })
                (if diceRoll = 6 then false else true)
          else
            let captureResult : List Token × Bool × Bool :=
              if token.isPhased = false then
                match s.tokens.find? (fun t =>
                    t.position == newPos && t.status == TokenStatus.ACTIVE && t.id != tokenId) with
                | some collisionToken =>
                  let isSafe := isSafeZone newPos s.boardConfig.playerCount
                    || decide (token.safePassageMovesRemaining > 0)
                  if collisionToken.playerId ≠ token.playerId ∧ isSafe = false then
                    if collisionToken.isInvulnerable || collisionToken.isImmune then
                      (nt, true, true)
                    else
                      (setTok nt collisionToken.id
                        { collisionToken with status := .BASE, position := -1 }, false, false)
                  else (nt, true, false)
                | none => (nt, true, false)
              else (nt, true, false)
            let nt2 := captureResult.1
            let hitInvulnerable := captureResult.2.2
            let s1 :=
              if isPowerUpZone newPos s.boardConfig.playerCount
                  && (lookupPU s.powerUpsOnBoard newPos).isSome then
                collectPowerUp newPos token.playerId s
              else s
            let cur := (getToken nt2 tokenId).getD token
            let nt3 := setTok nt2 tokenId { cur with position := newPos }
            let shouldEndTurn :=
              if diceRoll = 6 ∧ hitInvulnerable = false then false else captureResult.2.1
            finishMove shuffle gen currentPlayer.id s1 nt3 shouldEndTurn
        | .HOME_STRETCH =>
          let homePos := if token.position < 0 ∨ token.position > 5 then 0 else token.position
          let er1 : Int × List Token :=
            if token.doubleMoveNext then
              let cur := (getToken s.tokens tokenId).getD token
              (diceRoll * 2, setTok s.tokens tokenId { cur with doubleMoveNext := false })
            else (diceRoll, s.tokens)
          let er2 : Int × List Token :=
            match token.exactMoveValue with
            | some v =>
              let cur := (getToken er1.2 tokenId).getD token
              (v, setTok er1.2 tokenId { cur with exactMoveValue := none })
            | none => er1
          let effectiveRoll := er2.1
          let newHomePos := homePos + effectiveRoll
          if newHomePos ≥ 5 then
            finishMove shuffle gen currentPlayer.id s
              (setTok er2.2 tokenId { token with status := .FINISHED, position := 5 }) true
          else
            finishMove shuffle gen currentPlayer.id s
              (setTok er2.2 tokenId { token with position := newHomePos })
              (if diceRoll = 6 then false else true)
        | .FINISHED =>
          finishMove shuffle gen currentPlayer.id s s.tokens true
  | _, _ => s

/-- `activatePowerUp(playerId, powerUpIndex, targetTokenId?, targetPosition?,
targetPlayerId?, targetDiceValue?)`.  Rejected if a power-up was already used
this turn, if it is not the acting player's turn, or if the index does not
resolve.  The 20-way dispatch returns the updated tokens and players together
with the `used` / `needsSelection` flags; only TELEPORT and EXACT_MOVE raise
`needsSelection` when their targets are absent.  `stealRand ∈ [0,1)` models the
`Math.random()` draw of the STEAL_POWERUP branch. -/
def activatePowerUp (stealRand : ℚ) (playerId : String) (powerUpIndex : Int)
    (targetTokenId : Option String) (targetPosition : Option Int)
    (targetPlayerId : Option String) (targetDiceValue : Option Int)
    (s : GameState) : GameState :=
  if s.powerUpUsedThisTurn then s
  else if ((jsGet s.players s.currentPlayerIndex).map Player.id) ≠ some playerId then s
  else
    match s.players.findIdx? (fun p => p.id == playerId) with
    | none => s
    | some playerIndex =>
      match s.players[playerIndex]? with
      | none => s
      | some player =>
        match jsGet player.powerUps powerUpIndex with
        | none => s
        | some powerUp =>
          let noop : List Token × List Player × Bool × Bool :=
            (s.tokens, s.players, false, false)
          let res : List Token × List Player × Bool × Bool :=
            match powerUp.type with
            | .TELEPORT =>
              match targetPosition, targetTokenId with
              | some tp, some tt =>
                (match getToken s.tokens tt with
                 | some token =>
                   if token.playerId = playerId ∧ token.status = .ACTIVE then
                     let trackLen := getTrackLength s.boardConfig.playerCount
                     if 0 ≤ tp ∧ tp < trackLen then
                       (setTok s.tokens tt { token with position := tp }, s.players, true, false)
                     else noop
                   else noop
                 | none => noop)
              | _, _ => (s.tokens, s.players, false, true)
            | .DOUBLE_MOVE =>
              match targetTokenId with
              | some tt =>
                (match getToken s.tokens tt with
                 | some token =>
                   if token.playerId = playerId then
                     (setTok s.tokens tt { token with doubleMoveNext := true }, s.players, true, false)
                   else noop
                 | none => noop)
              | none => noop
            | .EXACT_MOVE =>
              match targetDiceValue, targetTokenId with
              | some v, some tt =>
                (match getToken s.tokens tt with
                 | some token =>
                   if token.playerId = playerId ∧ 1 ≤ v ∧ v ≤ 6 then
                     (setTok s.tokens tt { token with exactMoveValue := some v }, s.players, true, false)
                   else noop
                 | none => noop)
              | _, _ => (s.tokens, s.players, false, true)
            | .WARP =>
              match targetTokenId with
              | some tt =>
                (match getToken s.tokens tt with
                 | some token =>
                   if token.playerId = playerId ∧ token.status = .ACTIVE then
                     let trackLen := getTrackLength s.boardConfig.playerCount
                     let newPos := (token.position + 10) % trackLen
                     (setTok s.tokens tt { token with position := newPos }, s.players, true, false)
                   else noop
                 | none => noop)
              | none => noop
            | .BACKWARDS_DASH =>
              match targetTokenId with
              | some tt =>
                (match getToken s.tokens tt with
                 | some token =>
                   if token.playerId = playerId ∧ token.status = .ACTIVE then
                     let trackLen := getTrackLength s.boardConfig.playerCount
                     let newPos := (token.position - 5 + trackLen) % trackLen
                     (setTok s.tokens tt { token with position := newPos }, s.players, true, false)
                   else noop
                 | none => noop)
              | none => noop
            | .HOME_STRETCH_TELEPORT =>
              match targetTokenId with
              | some tt =>
                (match getToken s.tokens tt with
                 | some token =>
                   if token.playerId = playerId ∧ token.status = .ACTIVE then
                     let playerIdx : Int :=
                       match s.players.findIdx? (fun p => p.id == playerId) with
                       | some i => (i : Int)
                       | none => -1
                     let turningIndex := getTurningIndex playerIdx s.boardConfig.playerCount
                     (setTok s.tokens tt { token with position := turningIndex }, s.players, true, false)
                   else noop
                 | none => noop)
              | none => noop
            | .SEND_BACK =>
              match targetTokenId with
              | some tt =>
                (match getToken s.tokens tt with
                 | some targetToken =>
                   if targetToken.playerId ≠ playerId ∧ targetToken.status = .ACTIVE then
                     if targetToken.isImmune = false then
                       (setTok s.tokens tt { targetToken with status := .BASE, position := -1 },
                        s.players, true, false)
                     else noop
                   else noop
                 | none => noop)
              | none => noop
            | .FREEZE =>
              match targetTokenId with
              | some tt =>
                (match getToken s.tokens tt with
                 | some targetToken =>
                   if targetToken.playerId ≠ playerId ∧ targetToken.status ≠ .BASE then
                     if targetToken.isImmune = false then
                       (setTok s.tokens tt { targetToken with frozenTurnsRemaining := 2 },
                        s.players, true, false)
                     else noop
                   else noop
                 | none => noop)
              | none => noop
            | .STEAL_POWERUP =>
              match targetPlayerId with
              | some tpid =>
                (match s.players.findIdx? (fun p => p.id == tpid) with
                 | some targetPlayerIndex =>
                   if targetPlayerIndex ≠ playerIndex then
                     match s.players[targetPlayerIndex]? with
                     | some targetPlayer =>
                       if targetPlayer.powerUps.length > 0 then
                         let stolenIndex :=
                           (⌊stealRand * (targetPlayer.powerUps.length : ℚ)⌋).toNat
                         let stolenPowerUp :=
                           (targetPlayer.powerUps[stolenIndex]?).getD ⟨"", .SHIELD⟩
                         let newTargetPowerUps := targetPlayer.powerUps.eraseIdx stolenIndex
                         let np1 := s.players.set targetPlayerIndex
                           { targetPlayer with powerUps := newTargetPowerUps }
                         let np2 := np1.set playerIndex
                           { player with powerUps := player.powerUps ++ [stolenPowerUp] }
                         (s.tokens, np2, true, false)
                       else noop
                     | none => noop
                   else noop
                 | none => noop)
              | none => noop
            | .MAGNET =>
              match targetTokenId with
              | some tt =>
                let myToken := s.tokens.find? (fun t =>
                  t.playerId == playerId && t.status == TokenStatus.ACTIVE)
                (match getToken s.tokens tt with
                 | some targetToken =>
                   if myToken.isSome ∧ targetToken.playerId ≠ playerId ∧
                       targetToken.status = .ACTIVE then
                     if targetToken.isImmune = false then
                       let trackLen := getTrackLength s.boardConfig.playerCount
                       let targetPos := targetToken.position
                       let newPos := (targetPos - 3 + trackLen) % trackLen
                       (setTok s.tokens tt { targetToken with position := newPos },
                        s.players, true, false)
                     else noop
                   else noop
                 | none => noop)
              | none => noop
            | .IMMUNITY =>
              match targetTokenId with
              | some tt =>
                (match getToken s.tokens tt with
                 | some token =>
                   if token.playerId = playerId then
                     (setTok s.tokens tt
                       { token with isImmune := true, immunityTurnsRemaining := 3 },
                      s.players, true, false)
                   else noop
                 | none => noop)
              | none => noop
            | .PHASE =>
              match targetTokenId with
              | some tt =>
                (match getToken s.tokens tt with
                 | some token =>
                   if token.playerId = playerId then
                     (setTok s.tokens tt
                       { token with isPhased := true, phasedTurnsRemaining := 1 },
                      s.players, true, false)
                   else noop
                 | none => noop)
              | none => noop
            | .SAFE_PASSAGE =>
              match targetTokenId with
              | some tt =>
                (match getToken s.tokens tt with
                 | some token =>
                   if token.playerId = playerId then
                     (setTok s.tokens tt { token with safePassageMovesRemaining := 3 },
                      s.players, true, false)
                   else noop
                 | none => noop)
              | none => noop
            | .EXTRA_TURN => (s.tokens, s.players, true, false)
            | .BONUS_ROLL => (s.tokens, s.players, true, false)
            | .DICE_LOCK =>
              match targetPlayerId with
              | some _ => (s.tokens, s.players, true, false)
              | none => noop
            | .SWAP_DICE =>
              match targetPlayerId with
              | some _ => (s.tokens, s.players, true, false)
              | none => noop
            | .SHIELD =>
              match targetTokenId with
              | some tt =>
                (match getToken s.tokens tt with
                 | some token =>
                   if token.playerId = playerId then
                     (setTok s.tokens tt
                       { token with isInvulnerable := true, shieldTurnsRemaining := 2 },
                      s.players, true, false)
                   else noop
                 | none => noop)
              | none => noop
            | .REVERSE =>
              match targetTokenId with
              | some tt =>
                (match getToken s.tokens tt with
                 | some token =>
                   if token.playerId = playerId then
                     (setTok s.tokens tt { token with isReversed := true }, s.players, true, false)
                   else noop
                 | none => noop)
              | none => noop
            | .SWAP =>
              match targetTokenId with
              | some tt =>
                let sourceToken := s.tokens.find? (fun t =>
                  t.playerId == playerId && t.status == TokenStatus.ACTIVE)
                (match sourceToken, getToken s.tokens tt with
                 | some src, some targetToken =>
                   if targetToken.playerId ≠ playerId ∧ targetToken.status = .ACTIVE then
                     if targetToken.isImmune = false then
                       let sourcePos := src.position
                       let targetPos := targetToken.position
                       let nt1 := setTok s.tokens src.id { src with position := targetPos }
                       (setTok nt1 tt { targetToken with position := sourcePos },
                        s.players, true, false)
                     else noop
                   else noop
                 | _, _ => noop)
              | none => noop
          let newTokens := res.1
          let newPlayers := res.2.1
          let used := res.2.2.1
          let needsSelection := res.2.2.2
          if needsSelection then
            { s with
              phase := .POWERUP_SELECTION
              pendingPowerUpSelection := some ⟨powerUp.type, powerUpIndex, playerId⟩ }
          else if used then
            let newPowerUps := player.powerUps.eraseIdx powerUpIndex.toNat
            { s with
              tokens := newTokens
              players := newPlayers.set playerIndex { player with powerUps := newPowerUps }
              powerUpUsedThisTurn := true
              pendingPowerUpSelection := none }
          else s

/-- One freshly created BASE token (`initGame`'s inner loop body). -/
def initToken (pid : String) (i : Nat) : Token :=
  { id := pid ++ "_t" ++ toString i
    playerId := pid
    position := -1
    status := .BASE
    isInvulnerable := false
    shieldTurnsRemaining := 0
    isReversed := false
    frozenTurnsRemaining := 0
    isPhased := false
    phasedTurnsRemaining := 0
    isImmune := false
    immunityTurnsRemaining := 0
    doubleMoveNext := false
    exactMoveValue := none
    safePassageMovesRemaining := 0 }

/-- The `spawnPositions.forEach` loop of `initGame`, building the initial board
power-up record with one generated power-up per position. -/
def spawnRecord (gen : Nat → PowerUp) (i : Nat) :
    List Int → List (Int × PowerUp) → List (Int × PowerUp)
  | [], m => m
  | pos :: rest, m => spawnRecord gen (i + 1) rest (recordSetPU m pos (gen i))

/-- `initGame(playerCount)`: fresh players (empty inventories), 4 BASE tokens
each, 6 initial board power-ups at random eligible positions, phase ROLLING.
The source's `set` does not mention `diceRoll`, so a previous die survives a
re-init, as in the store. -/
def initGame (shuffle : List Int → List Int) (gen : Nat → PowerUp)
    (playerCount : Int) (s : GameState) : GameState :=
  let colors := ["#FF0000", "#00FF00", "#0000FF", "#FFFF00", "#00FFFF", "#FF00FF"]
  let players : List Player := (List.range playerCount.toNat).map (fun i =>
    { id := "p" ++ toString i
      name := "Player " ++ toString (i + 1)
      color := (colors[i]?).getD "#000000"
      powerUps := [] })
  let tokens : List Token := players.flatMap (fun p => (List.range 4).map (initToken p.id))
  let spawnPositions := getRandomPowerUpSpawnPositions shuffle 6 playerCount []
  let powerUpsOnBoard := spawnRecord gen 0 spawnPositions []
  { s with
    players := players
    tokens := tokens
    boardConfig := { playerCount := playerCount }
    phase := .ROLLING
    currentPlayerIndex := 0
    powerUpsOnBoard := powerUpsOnBoard
    powerUpUsedThisTurn := false
    turnCount := 0
    pendingPowerUpCollection := none
    pendingPowerUpSelection := none }

/-- `INITIAL_STATE` of the store. -/
def initialState : GameState :=
  { players := []
    tokens := []
    currentPlayerIndex := 0
    diceRoll := none
    phase := .SETUP
    boardConfig := { playerCount := 4 }
    powerUpsOnBoard := []
    powerUpUsedThisTurn := false
    turnCount := 0
    pendingPowerUpCollection := none
    pendingPowerUpSelection := none }

/-! ## Reachability

`Reachable s` holds when `s` arises from the store's initial state by the
engine commands considered in the claims (init, the two roll commands, move,
power-up activation/collection/discard, spawn/respawn, turn advance).  The
random parameters of each command are constrained to exactly the outcomes the
source's `Math.random()`-based code can produce. -/

/-- A valid outcome of the `[...available].sort(() => Math.random() - 0.5)`
shuffle: some permutation of its input. -/
def IsShuffler (shuffle : List Int → List Int) : Prop :=
  ∀ l : List Int, (shuffle l).Perm l

/-- A valid stream of `generatePowerUp()` outcomes. -/
def IsPowerUpGen (gen : Nat → PowerUp) : Prop :=
  ∀ i, ∃ r rid, r < 20 ∧ gen i = generatePowerUp r rid

inductive Reachable : GameState → Prop where
  | initial : Reachable initialState
  | init {s} (shuffle gen playerCount) : Reachable s → IsShuffler shuffle →
      IsPowerUpGen gen → Reachable (initGame shuffle gen playerCount s)
  | roll {s} (u : ℚ) : Reachable s → 0 ≤ u → u < 1 → Reachable (setDiceRoll u s)
  | rollValue {s} (value) : Reachable s → Reachable (setDiceRollValue value s)
  | move {s} (shuffle gen tokenId) : Reachable s → IsShuffler shuffle →
      IsPowerUpGen gen → Reachable (moveToken shuffle gen tokenId s)
  | next {s} (shuffle gen) : Reachable s → IsShuffler shuffle → IsPowerUpGen gen →
      Reachable (nextTurn shuffle gen s)
  | activate {s} (stealRand playerId powerUpIndex targetTokenId targetPosition
      targetPlayerId targetDiceValue) : Reachable s → 0 ≤ stealRand → stealRand < 1 →
      Reachable (activatePowerUp stealRand playerId powerUpIndex targetTokenId
        targetPosition targetPlayerId targetDiceValue s)
  | collect {s} (position playerId) : Reachable s →
      Reachable (collectPowerUp position playerId s)
  | discard {s} (playerId powerUpIndex) : Reachable s →
      Reachable (discardPowerUp playerId powerUpIndex s)
  | spawn {s} (r rid position) : Reachable s → r < 20 →
      Reachable (spawnPowerUpOnBoard (generatePowerUp r rid) position s)
  | respawn {s} (shuffle gen) : Reachable s → IsShuffler shuffle → IsPowerUpGen gen →
      Reachable (respawnPowerUps shuffle gen s)

/-! ## Concrete scenarios

Fixed random sources and small hand-built states used by the concrete
counterexample and witness theorems. -/

/-- The identity shuffle (a legal outcome of the random sort). -/
def idShuffle : List Int → List Int := fun l => l

/-- A power-up generator stream that always draws index 3 (TELEPORT). -/
def teleportGen : Nat → PowerUp := fun i => generatePowerUp 3 ("pu" ++ toString i)

theorem idShuffle_isShuffler : IsShuffler idShuffle := fun l => List.Perm.refl l

theorem teleportGen_isGen : IsPowerUpGen teleportGen :=
  fun i => ⟨3, "pu" ++ toString i, by omega, rfl⟩

/-- A token with the given id, owner, position and status, all effects clear. -/
def mkToken (tid pid : String) (pos : Int) (st : TokenStatus) : Token :=
  { initToken pid 0 with id := tid, position := pos, status := st }

/-- Four players with empty inventories, as `initGame 4` creates them. -/
def fourPlayers : List Player :=
  [ { id := "p0", name := "Player 1", color := "#FF0000", powerUps := [] },
    { id := "p1", name := "Player 2", color := "#00FF00", powerUps := [] },
    { id := "p2", name := "Player 3", color := "#0000FF", powerUps := [] },
    { id := "p3", name := "Player 4", color := "#FFFF00", powerUps := [] } ]

/-- A 4-player mid-move state: given tokens, player 0 to move, die rolled. -/
def movingState (toks : List Token) (roll : Int) : GameState :=
  { initialState with
      players := fourPlayers
      tokens := toks
      phase := .MOVING
      diceRoll := some roll }

/-- Mover of player 0 at square 27; an opposing ACTIVE token with 3 moves of
safe passage sits on the destination square 28 (not a safe zone). -/
def safePassageProbeTokens : List Token :=
  [ mkToken "p0_t0" "p0" 27 .ACTIVE,
    { mkToken "p1_t0" "p1" 28 .ACTIVE with safePassageMovesRemaining := 3 } ]

/-- Claim C1, counterexample.  The occupant of the destination square has
temporary safe-passage (`safePassageMovesRemaining = 3`), the destination is
not a safe zone, the occupant is neither invulnerable nor immune and the mover
is not phased — yet `moveToken` captures the occupant (sends it to BASE at the
sentinel position) and grants the bonus turn, because the engine tests the
MOVER's safe-passage counter, not the occupant's. -/
theorem C1_counterexample :
    (getToken (movingState safePassageProbeTokens 1).tokens "p1_t0").map
        Token.safePassageMovesRemaining = some 3 ∧
    isSafeZone 28 4 = false ∧
    (getToken (moveToken idShuffle teleportGen "p0_t0"
        (movingState safePassageProbeTokens 1)).tokens "p1_t0").map
        (fun t => (t.status, t.position)) = some (TokenStatus.BASE, -1) ∧
    (moveToken idShuffle teleportGen "p0_t0"
        (movingState safePassageProbeTokens 1)).currentPlayerIndex = 0 := by
  decide

/-- Mover of player 0 at square 20; a second player-0 token in BASE carries
both a positive shield counter and a positive frozen counter. -/
def multiCounterProbeTokens : List Token :=
  [ mkToken "p0_t0" "p0" 20 .ACTIVE,
    { mkToken "p0_t1" "p0" (-1) .BASE with
        isInvulnerable := true, shieldTurnsRemaining := 1, frozenTurnsRemaining := 2 } ]

/-- Claim C4, evaluation at the failing input.  Token `p0_t1` starts the move
with `shieldTurnsRemaining = 1` (flag set) and `frozenTurnsRemaining = 2`.
The claim requires the shield counter decremented to 0 and `isInvulnerable`
cleared alongside the frozen decrement; the code's decrement loop spreads the
frozen update from the stale pre-loop snapshot, so the shield decrement and
flag clear are lost: the token ends with `shieldTurnsRemaining = 1` and
`isInvulnerable = true`. -/
theorem C4_failing_input_eval :
    (getToken (moveToken idShuffle teleportGen "p0_t0"
        (movingState multiCounterProbeTokens 1)).tokens "p0_t1").map
        (fun t => (t.shieldTurnsRemaining, t.isInvulnerable, t.frozenTurnsRemaining)) =
      some (1, true, 1) := by
  decide

/-- Reachable trace for claim C5: init a 4-player game (board power-ups at
positions 0, 8, 13, 21, 26, 34, all TELEPORT), have player 0 collect three of
them, then collect a fourth (making a collection pending and forcing
POWERUP_DISCARD), then activate the held TELEPORT without a target. -/
def pendingTrace1 : GameState := initGame idShuffle teleportGen 4 initialState

def pendingTrace2 : GameState := collectPowerUp 0 "p0" pendingTrace1

def pendingTrace3 : GameState := collectPowerUp 8 "p0" pendingTrace2

def pendingTrace4 : GameState := collectPowerUp 13 "p0" pendingTrace3

def pendingTrace5 : GameState := collectPowerUp 21 "p0" pendingTrace4

def pendingTrace6 : GameState := activatePowerUp 0 "p0" 0 none none none none pendingTrace5

/-- Claim C5, counterexample.  The state reached by the trace above has BOTH
pending requests non-null at once, and its phase is `POWERUP_SELECTION` while
a collection is pending — `activatePowerUp` has no phase guard, so it happily
creates a pending selection during `POWERUP_DISCARD`. -/
theorem C5_counterexample :
    Reachable pendingTrace6 ∧
    pendingTrace6.pendingPowerUpCollection = some ⟨21, "p0"⟩ ∧
    pendingTrace6.pendingPowerUpSelection = some ⟨.TELEPORT, 0, "p0"⟩ ∧
    pendingTrace6.phase = .POWERUP_SELECTION := by
  refine ⟨?_, by decide, by decide, by decide⟩
  exact Reachable.activate 0 "p0" 0 none none none none
    (Reachable.collect 21 "p0"
      (Reachable.collect 13 "p0"
        (Reachable.collect 8 "p0"
          (Reachable.collect 0 "p0"
            (Reachable.init idShuffle teleportGen 4 Reachable.initial
              idShuffle_isShuffler teleportGen_isGen)))))
    (by norm_num) (by norm_num)

/-- A ROLLING-phase state in which player 0 holds a single SHIELD power-up. -/
def shieldHolderState : GameState :=
  { initialState with
      players :=
        [ { id := "p0", name := "Player 1", color := "#FF0000",
            powerUps := [⟨"sh1", .SHIELD⟩] },
          { id := "p1", name := "Player 2", color := "#00FF00", powerUps := [] } ]
      tokens := [mkToken "p0_t0" "p0" 5 .ACTIVE, mkToken "p1_t0" "p1" 18 .ACTIVE]
      phase := .ROLLING }

/-- Claim C6, counterexample.  SHIELD requires a target token, the acting
player is current and the per-turn flag is clear, yet calling
`activatePowerUp` with the target absent does NOT enter the selection
protocol: the call is a complete no-op (only the TELEPORT and EXACT_MOVE
branches ever raise `needsSelection`). -/
theorem C6_counterexample :
    activatePowerUp 0 "p0" 0 none none none none shieldHolderState = shieldHolderState ∧
    (activatePowerUp 0 "p0" 0 none none none none shieldHolderState).phase ≠
      GamePhase.POWERUP_SELECTION ∧
    (activatePowerUp 0 "p0" 0 none none none none
        shieldHolderState).pendingPowerUpSelection = none := by
  decide

/-- Player 0's only probed token is FINISHED; the die shows 3. -/
def finishedProbeState : GameState :=
  movingState [mkToken "p0_t0" "p0" 5 .FINISHED] 3

/-- Claim C8, counterexample.  `moveToken` on a FINISHED token is NOT a no-op:
the status dispatch falls through, but the shared tail still runs — the die is
consumed, the phase is reset and the turn advances to player 1. -/
theorem C8_counterexample :
    moveToken idShuffle teleportGen "p0_t0" finishedProbeState ≠ finishedProbeState ∧
    (moveToken idShuffle teleportGen "p0_t0" finishedProbeState).diceRoll = none ∧
    (moveToken idShuffle teleportGen "p0_t0" finishedProbeState).currentPlayerIndex = 1 := by
  decide

/-- Claim C6, amended: only TELEPORT and EXACT_MOVE use the two-phase
selection protocol.  For a held power-up of one of those two types, calling
`activatePowerUp` with a required target parameter absent (acting player
current, per-turn flag clear) sets phase `POWERUP_SELECTION` and records the
pending selection (type, inventory index, player id) — and changes nothing
else, in particular the power-up is not consumed.  (Counterexample
`C6_counterexample` shows the other target-requiring types are silent
no-ops instead.) -/
theorem C6_amended_selection_protocol (s : GameState) (playerId : String)
    (powerUpIndex : Int) (tt : Option String) (tp : Option Int) (tpl : Option String)
    (tdv : Option Int) (stealRand : ℚ) (player : Player) (powerUp : PowerUp) (i : Nat)
    (hused : s.powerUpUsedThisTurn = false)
    (hcur : (jsGet s.players s.currentPlayerIndex).map Player.id = some playerId)
    (hidx : s.players.findIdx? (fun p => p.id == playerId) = some i)
    (hget : s.players[i]? = some player)
    (hpu : jsGet player.powerUps powerUpIndex = some powerUp)
    (habsent :
      (powerUp.type = .TELEPORT ∧ (tp = none ∨ tt = none)) ∨
      (powerUp.type = .EXACT_MOVE ∧ (tdv = none ∨ tt = none))) :
    activatePowerUp stealRand playerId powerUpIndex tt tp tpl tdv s =
      { s with
        phase := .POWERUP_SELECTION
        pendingPowerUpSelection := some ⟨powerUp.type, powerUpIndex, playerId⟩ } := by
  unfold activatePowerUp
  rw [hcur]
  simp only [hidx, hget, hpu]
  rcases habsent with ⟨hty, h2⟩ | ⟨hty, h2⟩
  · simp only [hty]
    rcases h2 with h | h
    · subst h; simp [hused]
    · subst h; cases tp <;> simp [hused]
  · simp only [hty]
    rcases h2 with h | h
    · subst h; simp [hused]
    · subst h; cases tdv <;> simp [hused]

/-- A ROLLING-phase state in which player 0 holds a single TELEPORT power-up
(used to witness the selection protocol). -/
def teleportHolderState : GameState :=
  { initialState with
      players :=
        [ { id := "p0", name := "Player 1", color := "#FF0000",
            powerUps := [⟨"tp1", .TELEPORT⟩] },
          { id := "p1", name := "Player 2", color := "#00FF00", powerUps := [] } ]
      tokens := [mkToken "p0_t0" "p0" 5 .ACTIVE, mkToken "p1_t0" "p1" 18 .ACTIVE]
      phase := .ROLLING }

/-- Witness for `C6_amended_selection_protocol`: activating the held TELEPORT
without a target from `teleportHolderState` records the pending selection. -/
theorem C6_amended_witness :
    teleportHolderState.powerUpUsedThisTurn = false ∧
    activatePowerUp 0 "p0" 0 none none none none teleportHolderState =
      { teleportHolderState with
        phase := .POWERUP_SELECTION
        pendingPowerUpSelection := some ⟨.TELEPORT, 0, "p0"⟩ } :=
  ⟨by decide,
   C6_amended_selection_protocol teleportHolderState "p0" 0 none none none none 0
     { id := "p0", name := "Player 1", color := "#FF0000",
       powerUps := [⟨"tp1", .TELEPORT⟩] }
     ⟨"tp1", .TELEPORT⟩ 0 (by decide) (by decide) (by decide) (by decide) (by decide)
     (Or.inl ⟨rfl, Or.inl rfl⟩)⟩

/-- Claim C8, amended: `moveToken` is a complete no-op when the die is absent,
when the token is not owned by the current player, when the token is frozen,
and when the token is in BASE and the die is not 6.  (A FINISHED token,
however, is processed by the shared tail rather than rejected — see
`C8_counterexample`.) -/
theorem C8_amended_invalid_no_op (shuffle : List Int → List Int) (gen : Nat → PowerUp)
    (tokenId : String) (s : GameState) :
    (s.diceRoll = none → moveToken shuffle gen tokenId s = s) ∧
    (∀ token, getToken s.tokens tokenId = some token →
      ((jsGet s.players s.currentPlayerIndex).map Player.id ≠ some token.playerId →
        moveToken shuffle gen tokenId s = s) ∧
      (token.frozenTurnsRemaining > 0 → moveToken shuffle gen tokenId s = s) ∧
      (∀ r, s.diceRoll = some r → token.status = .BASE → r ≠ 6 →
        moveToken shuffle gen tokenId s = s)) := by
  constructor
  · intro h
    rcases hg : getToken s.tokens tokenId with _ | tok <;> simp [moveToken, h, hg]
  · intro token hg
    refine ⟨?_, ?_, ?_⟩
    · intro hown
      rcases hd : s.diceRoll with _ | r
      · simp [moveToken, hg, hd]
      · rcases hcur : jsGet s.players s.currentPlayerIndex with _ | cp
        · simp [moveToken, hg, hd, hcur]
        · have hne : token.playerId ≠ cp.id := by
            intro hEq
            exact hown (by simp [hcur, hEq])
          simp [moveToken, hg, hd, hcur, hne]
    · intro hfrozen
      rcases hd : s.diceRoll with _ | r
      · simp [moveToken, hg, hd]
      · rcases hcur : jsGet s.players s.currentPlayerIndex with _ | cp
        · simp [moveToken, hg, hd, hcur]
        · by_cases hown : token.playerId = cp.id
          · simp [moveToken, hg, hd, hcur, hown, hfrozen]
          · simp [moveToken, hg, hd, hcur, hown]
    · intro r hd hbase hne6
      rcases hcur : jsGet s.players s.currentPlayerIndex with _ | cp
      · simp [moveToken, hg, hd, hcur]
      · by_cases hown : token.playerId = cp.id
        · by_cases hfrozen : token.frozenTurnsRemaining > 0
          · simp [moveToken, hg, hd, hcur, hown, hfrozen]
          · simp [moveToken, hg, hd, hcur, hown, hfrozen, hbase, hne6]
        · simp [moveToken, hg, hd, hcur, hown]

/-- Player 0's probed token is frozen (used to witness the no-op guards). -/
def frozenProbeState : GameState :=
  movingState [{ mkToken "p0_t0" "p0" 20 .ACTIVE with frozenTurnsRemaining := 2 }] 3

/-- Witness for `C8_amended_invalid_no_op`: moving a frozen token changes
nothing. -/
theorem C8_amended_witness :
    moveToken idShuffle teleportGen "p0_t0" frozenProbeState = frozenProbeState :=
  (((C8_amended_invalid_no_op idShuffle teleportGen "p0_t0" frozenProbeState).2
      { mkToken "p0_t0" "p0" 20 .ACTIVE with frozenTurnsRemaining := 2 }
      (by decide)).2.1) (by decide)

/-! ## List helper lemmas -/

/-- The element sitting at a `findIdx?` hit satisfies the predicate. -/
theorem findIdx_found_pred {α : Type _} (p : α → Bool) :
    ∀ (l : List α) (i : Nat) (a : α), l.findIdx? p = some i → l[i]? = some a → p a = true := by
  intro l
  induction l with
  | nil => intro i a h; simp [List.findIdx?_nil] at h
  | cons hd t ih =>
    intro i a h hget
    rw [List.findIdx?_cons] at h
    by_cases hp : p hd
    · simp [hp] at h
      subst h
      simp at hget
      subst hget
      exact hp
    · simp [hp] at h
      rcases ho : t.findIdx? p with _ | j
      · rw [ho] at h; simp at h
      · rw [ho] at h
        simp at h
        subst h
        simp at hget
        exact ih j a ho hget

/-- Overwriting the `findIdx?` hit with another element satisfying the
predicate keeps the hit index. -/
theorem findIdx_set_self {α : Type _} (p : α → Bool) (b : α) (hb : p b = true) :
    ∀ (l : List α) (i : Nat), l.findIdx? p = some i → (l.set i b).findIdx? p = some i := by
  intro l
  induction l with
  | nil => intro i h; simp [List.findIdx?_nil] at h
  | cons hd t ih =>
    intro i h
    rw [List.findIdx?_cons] at h
    by_cases hp : p hd
    · simp [hp] at h
      subst h
      simp [List.findIdx?_cons, hb]
    · simp [hp] at h
      rcases ho : t.findIdx? p with _ | j
      · rw [ho] at h; simp at h
      · rw [ho] at h
        simp at h
        subst h
        simp [List.findIdx?_cons, hp, ih j ho]

/-- Claim C7: collecting onto a full (3-entry) inventory changes only the
phase (to `POWERUP_DISCARD`) and the pending request, leaving every inventory
and the board untouched; the subsequent `discardPowerUp` with a valid index
removes exactly the indexed entry order-preservingly, completes the blocked
collection (the blocking power-up moves from the board to the end of the
inventory), clears the pending request and restores `ROLLING`. -/
theorem C7_full_inventory_discard_flow (s : GameState) (pos idx : Int) (pid : String)
    (i : Nat) (player : Player) (pu : PowerUp)
    (hfind : s.players.findIdx? (fun p => p.id == pid) = some i)
    (hget : s.players[i]? = some player)
    (hlen : player.powerUps.length = 3)
    (hpu : lookupPU s.powerUpsOnBoard pos = some pu)
    (hidx0 : 0 ≤ idx) (hidx3 : idx < 3) :
    collectPowerUp pos pid s =
      { s with phase := .POWERUP_DISCARD, pendingPowerUpCollection := some ⟨pos, pid⟩ } ∧
    discardPowerUp pid idx (collectPowerUp pos pid s) =
      { s with
        players := s.players.set i
          { player with powerUps := player.powerUps.eraseIdx idx.toNat ++ [pu] }
        powerUpsOnBoard := removePU s.powerUpsOnBoard pos
        pendingPowerUpCollection := none
        phase := .ROLLING } := by
  have hcol : collectPowerUp pos pid s =
      { s with phase := .POWERUP_DISCARD, pendingPowerUpCollection := some ⟨pos, pid⟩ } := by
    unfold collectPowerUp
    simp only [hfind, hget, hpu]
    have h3 : player.powerUps.length ≥ 3 := by omega
    simp [h3]
  refine ⟨hcol, ?_⟩
  rw [hcol]
  have hpid : (player.id == pid) = true := findIdx_found_pred _ s.players i player hfind hget
  have hlt : i < s.players.length := (List.getElem?_eq_some_iff.mp hget).1
  have hfind2 : (s.players.set i
      { player with powerUps := player.powerUps.eraseIdx idx.toNat }).findIdx?
        (fun p => p.id == pid) = some i :=
    findIdx_set_self (fun p => p.id == pid)
      { player with powerUps := player.powerUps.eraseIdx idx.toNat } hpid s.players i hfind
  have hget2 : (s.players.set i
      { player with powerUps := player.powerUps.eraseIdx idx.toNat })[i]? =
      some { player with powerUps := player.powerUps.eraseIdx idx.toNat } := by
    simp [List.getElem?_set, hlt]
  have hguard : ¬(idx < 0 ∨ idx ≥ (player.powerUps.length : Int)) := by
    rw [hlen]; push_cast; omega
  have hlen2 : ¬((player.powerUps.eraseIdx idx.toNat).length ≥ 3) := by
    rw [List.length_eraseIdx]
    have h4 : idx.toNat < player.powerUps.length := by omega
    rw [if_pos h4, hlen]
    omega
  unfold discardPowerUp
  simp only [hfind, hget, hguard, if_false]
  unfold collectPowerUp
  simp only [hfind2, hget2, hpu, hlen2, if_false]
  simp [List.set_set]

/-- Witness for `C7_full_inventory_discard_flow`: in the reachable trace state
where player 0 holds three power-ups and a fourth sits at square 21, the
blocked collection records the pending request and forces POWERUP_DISCARD. -/
theorem C7_witness :
    collectPowerUp 21 "p0" pendingTrace4 =
      { pendingTrace4 with
        phase := .POWERUP_DISCARD
        pendingPowerUpCollection := some ⟨21, "p0"⟩ } :=
  (C7_full_inventory_discard_flow pendingTrace4 21 0 "p0" 0
    { id := "p0", name := "Player 1", color := "#FF0000",
      powerUps := [⟨"pu0", .TELEPORT⟩, ⟨"pu1", .TELEPORT⟩, ⟨"pu2", .TELEPORT⟩] }
    ⟨"pu3", .TELEPORT⟩ (by decide) (by decide) (by decide) (by decide)
    (by decide) (by decide)).1

/-- Every `activatePowerUp` call either leaves the state unchanged, or ends in
the selection phase, or clears the pending selection (the `used` branch). -/
theorem activatePowerUp_shape (stealRand : ℚ) (pid : String) (idx : Int)
    (tt : Option String) (tp : Option Int) (tpl : Option String) (tdv : Option Int)
    (s : GameState) :
    activatePowerUp stealRand pid idx tt tp tpl tdv s = s ∨
    (activatePowerUp stealRand pid idx tt tp tpl tdv s).phase = .POWERUP_SELECTION ∨
    (activatePowerUp stealRand pid idx tt tp tpl tdv s).pendingPowerUpSelection = none := by
  unfold activatePowerUp
  repeat' split
  all_goals try first
    | exact Or.inl rfl
    | exact Or.inr (Or.inl rfl)
    | exact Or.inr (Or.inr rfl)
    | simp_all
  all_goals split_ifs <;>
    first
      | exact Or.inl rfl
      | exact Or.inr (Or.inl rfl)
      | exact Or.inr (Or.inr rfl)
      | simp_all

/-- Claim C5, amended.  The claimed global invariant fails (see
`C5_counterexample`: the pending requests do not block the roll and activate
commands, so reachable states exist with both pendings non-null and with a
phase that does not match the pending collection).  What does hold: whenever
`collectPowerUp` changes the pending-collection request it simultaneously sets
phase `POWERUP_DISCARD`; whenever `activatePowerUp` changes the
pending-selection request it either sets phase `POWERUP_SELECTION` or has
cleared the request; and `moveToken` is a complete no-op whenever the die is
absent — which is the case immediately after a move creates a pending
collection, since every completed move clears the die. -/
theorem C5_amended_pending_discipline :
    (∀ (s : GameState) (pos : Int) (pid : String),
      (collectPowerUp pos pid s).pendingPowerUpCollection ≠ s.pendingPowerUpCollection →
      (collectPowerUp pos pid s).phase = .POWERUP_DISCARD) ∧
    (∀ (s : GameState) (stealRand : ℚ) (pid : String) (idx : Int)
        (tt : Option String) (tp : Option Int) (tpl : Option String) (tdv : Option Int),
      (activatePowerUp stealRand pid idx tt tp tpl tdv s).pendingPowerUpSelection ≠
        s.pendingPowerUpSelection →
      (activatePowerUp stealRand pid idx tt tp tpl tdv s).phase = .POWERUP_SELECTION ∨
      (activatePowerUp stealRand pid idx tt tp tpl tdv s).pendingPowerUpSelection = none) ∧
    (∀ (shuffle : List Int → List Int) (gen : Nat → PowerUp) (tid : String) (s : GameState),
      s.diceRoll = none → moveToken shuffle gen tid s = s) := by
  refine ⟨?_, ?_, ?_⟩
  · intro s pos pid h
    unfold collectPowerUp at h ⊢
    rcases hf : s.players.findIdx? (fun p => p.id == pid) with _ | i
    · simp only [hf] at h; simp at h
    · simp only [hf] at h ⊢
      rcases hg : s.players[i]? with _ | player
      · simp only [hg] at h; simp at h
      · simp only [hg] at h ⊢
        rcases hl : lookupPU s.powerUpsOnBoard pos with _ | pu
        · simp only [hl] at h; simp at h
        · simp only [hl] at h ⊢
          by_cases h3 : player.powerUps.length ≥ 3
          · simp [h3]
          · rw [if_neg h3] at h; simp at h
  · intro s stealRand pid idx tt tp tpl tdv h
    rcases activatePowerUp_shape stealRand pid idx tt tp tpl tdv s with hs | hs | hs
    · rw [hs] at h; exact absurd rfl h
    · exact Or.inl hs
    · exact Or.inr hs
  · intro shuffle gen tid s h
    rcases hg : getToken s.tokens tid with _ | tok <;> simp [moveToken, h, hg]

/-- Witness for `C5_amended_pending_discipline`: the blocked collection in the
trace state changes the pending request, so the phase is forced to
`POWERUP_DISCARD`. -/
theorem C5_amended_witness :
    (collectPowerUp 21 "p0" pendingTrace4).phase = .POWERUP_DISCARD :=
  C5_amended_pending_discipline.1 pendingTrace4 21 "p0" (by decide)

/-! ## Structural lemmas about the engine operations -/

theorem decayToken_id (t : Token) : (decayToken t).id = t.id := by
  unfold decayToken
  split_ifs <;> rfl

theorem decayToken_status (t : Token) : (decayToken t).status = t.status := by
  unfold decayToken
  split_ifs <;> rfl

theorem decayToken_position (t : Token) : (decayToken t).position = t.position := by
  unfold decayToken
  split_ifs <;> rfl

/-- Looking a token up after mapping an id-preserving function. -/
theorem getToken_map (f : Token → Token) (hf : ∀ t, (f t).id = t.id)
    (l : List Token) (tid : String) :
    getToken (l.map f) tid = (getToken l tid).map f := by
  unfold getToken
  rw [List.find?_map]
  have hcongr : ((fun t : Token => t.id == tid) ∘ f) = (fun t : Token => t.id == tid) := by
    funext t
    simp [Function.comp, hf]
  rw [hcongr]

/-- Looking up the assigned id after a keyed assignment whose value keeps that
id returns the assigned value (provided the id was present). -/
theorem getToken_setTok (l : List Token) (tid : String) (t : Token)
    (ht : (t.id == tid) = true) (tok : Token) (hfound : getToken l tid = some tok) :
    getToken (setTok l tid t) tid = some t := by
  have hpt : (tok.id == tid) = true := by
    have h1 := hfound
    unfold getToken at h1
    exact List.find?_some (p := fun t : Token => t.id == tid) h1
  unfold getToken setTok
  rw [List.find?_map]
  have hcongr : ((fun u : Token => u.id == tid) ∘ (fun u => if u.id == tid then t else u)) =
      (fun u : Token => u.id == tid) := by
    funext u
    by_cases hu : (u.id == tid) = true <;> simp [Function.comp, hu, ht]
  rw [hcongr]
  unfold getToken at hfound
  rw [hfound]
  have heq : tok.id = tid := by simpa using hpt
  simp [heq]

theorem spawnEach_tokens (gen : Nat → PowerUp) :
    ∀ (ps : List Int) (i : Nat) (s : GameState), (spawnEach gen i ps s).tokens = s.tokens := by
  intro ps
  induction ps with
  | nil => intro i s; rfl
  | cons p rest ih => intro i s; simpa [spawnEach, spawnPowerUpOnBoard] using ih (i + 1) _

theorem spawnEach_players (gen : Nat → PowerUp) :
    ∀ (ps : List Int) (i : Nat) (s : GameState), (spawnEach gen i ps s).players = s.players := by
  intro ps
  induction ps with
  | nil => intro i s; rfl
  | cons p rest ih => intro i s; simpa [spawnEach, spawnPowerUpOnBoard] using ih (i + 1) _

theorem respawnPowerUps_tokens (shuffle : List Int → List Int) (gen : Nat → PowerUp)
    (s : GameState) : (respawnPowerUps shuffle gen s).tokens = s.tokens := by
  unfold respawnPowerUps
  by_cases h : s.powerUpsOnBoard.length < 8 <;> simp [h, spawnEach_tokens]

theorem respawnPowerUps_players (shuffle : List Int → List Int) (gen : Nat → PowerUp)
    (s : GameState) : (respawnPowerUps shuffle gen s).players = s.players := by
  unfold respawnPowerUps
  by_cases h : s.powerUpsOnBoard.length < 8 <;> simp [h, spawnEach_players]

theorem nextTurn_tokens (shuffle : List Int → List Int) (gen : Nat → PowerUp)
    (s : GameState) : (nextTurn shuffle gen s).tokens = s.tokens := by
  unfold nextTurn
  by_cases h : (s.turnCount + 1) % 4 = 0 <;>
    simp only [h, if_true, if_false, reduceIte] <;>
      simp [respawnPowerUps_tokens]

theorem nextTurn_players (shuffle : List Int → List Int) (gen : Nat → PowerUp)
    (s : GameState) : (nextTurn shuffle gen s).players = s.players := by
  unfold nextTurn
  by_cases h : (s.turnCount + 1) % 4 = 0 <;>
    simp only [h, if_true, if_false, reduceIte] <;>
      simp [respawnPowerUps_players]

/-- The tokens after the shared move tail: the post-move token record with the
current player's counters decayed. -/
theorem finishMove_tokens (shuffle : List Int → List Int) (gen : Nat → PowerUp)
    (cpid : String) (s1 : GameState) (nt : List Token) (b : Bool) :
    (finishMove shuffle gen cpid s1 nt b).tokens =
      nt.map (fun t => if t.playerId == cpid then decayToken t else t) := by
  unfold finishMove
  cases b <;> rcases hp : s1.pendingPowerUpCollection with _ | pc <;>
    simp [hp, nextTurn_tokens]

theorem finishMove_players (shuffle : List Int → List Int) (gen : Nat → PowerUp)
    (cpid : String) (s1 : GameState) (nt : List Token) (b : Bool) :
    (finishMove shuffle gen cpid s1 nt b).players = s1.players := by
  unfold finishMove
  cases b <;> rcases hp : s1.pendingPowerUpCollection with _ | pc <;>
    simp [hp, nextTurn_players]

/-- The effective roll after the one-shot double-move / exact-move modifiers,
as `moveToken` computes it (double first, exact-move overrides). -/
def effectiveRollOf (token : Token) (diceRoll : Int) : Int :=
  match token.exactMoveValue with
  | some v => v
  | none => if token.doubleMoveNext then diceRoll * 2 else diceRoll

/-- Token lookup through the shared move tail. -/
theorem getToken_finishMove (shuffle : List Int → List Int) (gen : Nat → PowerUp)
    (cpid : String) (s1 : GameState) (nt : List Token) (b : Bool) (tid : String)
    (t : Token) (hfind : getToken nt tid = some t) :
    getToken (finishMove shuffle gen cpid s1 nt b).tokens tid =
      some (if t.playerId == cpid then decayToken t else t) := by
  rw [finishMove_tokens,
    getToken_map _ (fun u => by by_cases h : (u.playerId == cpid) = true <;>
      simp [h, decayToken_id]), hfind]
  rfl

/-- What a `moveToken` on a current-player HOME_STRETCH token at lane position
0–4 does to that token: add the effective roll, finishing at 5 when the sum
reaches 5 — with no overshoot check. -/
theorem moveToken_home_stretch_getToken (shuffle : List Int → List Int)
    (gen : Nat → PowerUp) (s : GameState) (tid : String) (token : Token) (cp : Player)
    (r : Int)
    (hg : getToken s.tokens tid = some token)
    (hd : s.diceRoll = some r)
    (hcur : jsGet s.players s.currentPlayerIndex = some cp)
    (hown : token.playerId = cp.id)
    (hfro : ¬(token.frozenTurnsRemaining > 0))
    (hst : token.status = .HOME_STRETCH)
    (hp0 : 0 ≤ token.position) (hp4 : token.position ≤ 4) :
    getToken (moveToken shuffle gen tid s).tokens tid =
      some (if 5 ≤ token.position + effectiveRollOf token r then
              decayToken { token with status := .FINISHED, position := 5 }
            else
              decayToken { token with
                position := token.position + effectiveRollOf token r }) := by
  have htid : (token.id == tid) = true := by
    have h1 := hg
    unfold getToken at h1
    exact List.find?_some (p := fun t : Token => t.id == tid) h1
  have hclamp : ¬(token.position < 0 ∨ token.position > 5) := by omega
  unfold moveToken
  simp only [hg, hd, hcur]
  rw [if_neg (by simp [hown]), if_neg hfro]
  simp only [hst]
  rcases hex : token.exactMoveValue with _ | v
  · by_cases hdm : token.doubleMoveNext
    · simp only [hex, hdm, hclamp, effectiveRollOf, hg, Option.getD_some,
        Bool.false_eq_true, if_true, if_false, reduceIte]
      by_cases h5 : token.position + r * 2 ≥ 5
      · rw [if_pos h5,
          getToken_finishMove _ _ _ _ _ _ _ _ (getToken_setTok _ _ _ (by exact htid) _
            (getToken_setTok _ _ _ (by exact htid) _ hg)),
          if_pos (by simpa using hown)]
        rw [if_pos (by omega)]
      · rw [if_neg h5,
          getToken_finishMove _ _ _ _ _ _ _ _ (getToken_setTok _ _ _ (by exact htid) _
            (getToken_setTok _ _ _ (by exact htid) _ hg)),
          if_pos (by simpa using hown)]
        rw [if_neg (by omega)]
    · simp only [hex, hdm, hclamp, effectiveRollOf, hg, Option.getD_some,
        Bool.false_eq_true, if_true, if_false, reduceIte]
      by_cases h5 : token.position + r ≥ 5
      · rw [if_pos h5,
          getToken_finishMove _ _ _ _ _ _ _ _ (getToken_setTok _ _ _ (by exact htid) _ hg),
          if_pos (by simpa using hown)]
        rw [if_pos (by omega)]
      · rw [if_neg h5,
          getToken_finishMove _ _ _ _ _ _ _ _ (getToken_setTok _ _ _ (by exact htid) _ hg),
          if_pos (by simpa using hown)]
        rw [if_neg (by omega)]
  · by_cases hdm : token.doubleMoveNext
    · simp only [hex, hdm, hclamp, effectiveRollOf, hg, Option.getD_some,
        Bool.false_eq_true, if_true, if_false, reduceIte]
      simp only [getToken_setTok s.tokens tid
          { token with doubleMoveNext := false, exactMoveValue := some v }
          (by exact htid) token hg, Option.getD_some]
      by_cases h5 : token.position + v ≥ 5
      · rw [if_pos h5,
          getToken_finishMove _ _ _ _ _ _ _ _ (getToken_setTok _ _ _ (by exact htid) _
            (getToken_setTok _ _ _ (by exact htid) _
              (getToken_setTok _ _ _ (by exact htid) _ hg))),
          if_pos (by simpa using hown)]
        rw [if_pos (by omega)]
      · rw [if_neg h5,
          getToken_finishMove _ _ _ _ _ _ _ _ (getToken_setTok _ _ _ (by exact htid) _
            (getToken_setTok _ _ _ (by exact htid) _
              (getToken_setTok _ _ _ (by exact htid) _ hg))),
          if_pos (by simpa using hown)]
        rw [if_neg (by omega)]
    · simp only [hex, hdm, hclamp, effectiveRollOf, hg, Option.getD_some,
        Bool.false_eq_true, if_true, if_false, reduceIte]
      by_cases h5 : token.position + v ≥ 5
      · rw [if_pos h5,
          getToken_finishMove _ _ _ _ _ _ _ _ (getToken_setTok _ _ _ (by exact htid) _
            (getToken_setTok _ _ _ (by exact htid) _ hg)),
          if_pos (by simpa using hown)]
        rw [if_pos (by omega)]
      · rw [if_neg h5,
          getToken_finishMove _ _ _ _ _ _ _ _ (getToken_setTok _ _ _ (by exact htid) _
            (getToken_setTok _ _ _ (by exact htid) _ hg)),
          if_pos (by simpa using hown)]
        rw [if_neg (by omega)]

/-- Claim C10: for a current-player, non-frozen HOME_STRETCH token at lane
position 0–4 with a pending die, `moveToken` finishes the token at 5 whenever
the lane position plus the effective roll (after double/exact modifiers)
reaches 5 — including overshooting rolls, which the roll-phase legal-move
check (`position + roll ≤ 5` in `hasValidMove`) classifies as having no legal
move; `moveToken` never re-validates that condition. -/
theorem C10_home_stretch_finish_rule (shuffle : List Int → List Int)
    (gen : Nat → PowerUp) (s : GameState) (tid : String) (token : Token) (cp : Player)
    (r : Int)
    (hg : getToken s.tokens tid = some token)
    (hd : s.diceRoll = some r)
    (hcur : jsGet s.players s.currentPlayerIndex = some cp)
    (hown : token.playerId = cp.id)
    (hfro : ¬(token.frozenTurnsRemaining > 0))
    (hst : token.status = .HOME_STRETCH)
    (hp0 : 0 ≤ token.position) (hp4 : token.position ≤ 4) :
    (5 ≤ token.position + effectiveRollOf token r →
      (getToken (moveToken shuffle gen tid s).tokens tid).map
        (fun t => (t.status, t.position)) = some (.FINISHED, 5)) ∧
    (token.position + effectiveRollOf token r < 5 →
      (getToken (moveToken shuffle gen tid s).tokens tid).map
        (fun t => (t.status, t.position)) =
        some (.HOME_STRETCH, token.position + effectiveRollOf token r)) ∧
    (5 < token.position + r → hasValidMove [token] r = false) := by
  refine ⟨?_, ?_, ?_⟩
  · intro h5
    rw [moveToken_home_stretch_getToken shuffle gen s tid token cp r hg hd hcur hown
        hfro hst hp0 hp4, if_pos h5]
    simp [decayToken_status, decayToken_position]
  · intro h4
    rw [moveToken_home_stretch_getToken shuffle gen s tid token cp r hg hd hcur hown
        hfro hst hp0 hp4, if_neg (by omega)]
    simp [decayToken_status, decayToken_position, hst]
  · intro hover
    simp [hasValidMove, hst]
    omega

/-- Witness for `C10_home_stretch_finish_rule`: a HOME_STRETCH token at lane
position 3 rolling a 6 (overshoot: 3 + 6 > 5, no legal move by the roll-phase
check) is finished at 5 anyway. -/
theorem C10_witness :
    (getToken (moveToken idShuffle teleportGen "p0_t0"
        (movingState [mkToken "p0_t0" "p0" 3 .HOME_STRETCH] 6)).tokens "p0_t0").map
      (fun t => (t.status, t.position)) = some (.FINISHED, 5) ∧
    hasValidMove [mkToken "p0_t0" "p0" 3 .HOME_STRETCH] 6 = false :=
  ⟨(C10_home_stretch_finish_rule idShuffle teleportGen
      (movingState [mkToken "p0_t0" "p0" 3 .HOME_STRETCH] 6) "p0_t0"
      (mkToken "p0_t0" "p0" 3 .HOME_STRETCH)
      { id := "p0", name := "Player 1", color := "#FF0000", powerUps := [] } 6
      (by decide) (by decide) (by decide) (by decide) (by decide) (by decide)
      (by decide) (by decide)).1 (by decide),
   (C10_home_stretch_finish_rule idShuffle teleportGen
      (movingState [mkToken "p0_t0" "p0" 3 .HOME_STRETCH] 6) "p0_t0"
      (mkToken "p0_t0" "p0" 3 .HOME_STRETCH)
      { id := "p0", name := "Player 1", color := "#FF0000", powerUps := [] } 6
      (by decide) (by decide) (by decide) (by decide) (by decide) (by decide)
      (by decide) (by decide)).2.2 (by decide)⟩

/-- A keyed assignment at a DIFFERENT id does not change a token lookup. -/
theorem getToken_setTok_other (l : List Token) (cid tid : String) (v : Token)
    (hvid : (v.id == tid) = false) (hcid : (cid == tid) = false) :
    getToken (setTok l cid v) tid = getToken l tid := by
  unfold getToken setTok
  rw [List.find?_map]
  have hcongr : ((fun u : Token => u.id == tid) ∘ (fun u => if u.id == cid then v else u)) =
      (fun u : Token => u.id == tid) := by
    funext u
    by_cases hu : (u.id == cid) = true
    · have : u.id = cid := by simpa using hu
      simp [Function.comp, hu, hvid, this, hcid]
    · simp [Function.comp, hu]
  rw [hcongr]
  rcases hf : l.find? (fun u => u.id == tid) with _ | tok
  · rw [hf]; rfl
  · rw [hf]
    have h1 : tok.id = tid := by
      simpa using List.find?_some (p := fun t : Token => t.id == tid) hf
    have h2 : (tok.id == cid) = false := by
      cases hq : (tok.id == cid)
      · rfl
      · exfalso
        have h3 : tok.id = cid := by simpa using hq
        have hct : cid = tid := by rw [← h3, h1]
        rw [hct] at hcid
        simp at hcid
    show some (if (tok.id == cid) = true then v else tok) = some tok
    rw [if_neg (by simp [h2])]

set_option maxHeartbeats 1000000 in
theorem moveToken_entry_core (shuffle : List Int → List Int) (gen : Nat → PowerUp)
    (s : GameState) (tid : String) (token : Token) (cp : Player) (r : Int) (j : Nat)
    (hg : getToken s.tokens tid = some token)
    (hd : s.diceRoll = some r) (hr1 : 1 ≤ r) (hr6 : r ≤ 6)
    (hcur : jsGet s.players s.currentPlayerIndex = some cp)
    (hown : token.playerId = cp.id)
    (hfro : ¬(token.frozenTurnsRemaining > 0))
    (hst : token.status = .ACTIVE)
    (hrev : token.isReversed = false)
    (hdm : token.doubleMoveNext = false)
    (hex : token.exactMoveValue = none)
    (hpc : s.boardConfig.playerCount = 4)
    (hj : s.players.findIdx? (fun p => p.id == token.playerId) = some j)
    (hT1 : 1 ≤ getTurningIndex (j : Int) 4) (hT52 : getTurningIndex (j : Int) 4 < 52)
    (hK : getSkippedIndex (j : Int) 4 = getTurningIndex (j : Int) 4 + 1)
    (hB : (getTurningIndex (j : Int) 4 - getStartPosition (j : Int) 4 + 52) % 52 = 50)
    (hpos0 : 0 ≤ token.position) (hpos52 : token.position < 52) :
    (token.position = getTurningIndex (j : Int) 4 →
      (r ≤ 5 → (getToken (moveToken shuffle gen tid s).tokens tid).map
          (fun t => (t.status, t.position)) = some (.HOME_STRETCH, r - 1)) ∧
      (r = 6 → (getToken (moveToken shuffle gen tid s).tokens tid).map
          (fun t => (t.status, t.position)) = some (.FINISHED, 5))) ∧
    (0 < (getTurningIndex (j : Int) 4 - token.position + 52) % 52 →
      (getTurningIndex (j : Int) 4 - token.position + 52) % 52 < r →
      (getToken (moveToken shuffle gen tid s).tokens tid).map
          (fun t => (t.status, t.position)) =
        some (.HOME_STRETCH,
          r - (getTurningIndex (j : Int) 4 - token.position + 52) % 52 - 1)) ∧
    ((getTurningIndex (j : Int) 4 - token.position + 52) % 52 = r →
      (getToken (moveToken shuffle gen tid s).tokens tid).map
          (fun t => (t.status, t.position)) =
        some (.ACTIVE, getTurningIndex (j : Int) 4)) := by
  have htid : (token.id == tid) = true := by
    have h1 := hg
    unfold getToken at h1
    exact List.find?_some (p := fun t : Token => t.id == tid) h1
  unfold moveToken
  simp only [hg, hd, hcur]
  rw [if_neg (by simp [hown]), if_neg hfro]
  simp only [hst, hpc, hj, hdm, hex, hrev, getTrackLength, Option.getD_some,
    Bool.false_eq_true, if_true, if_false, reduceIte, mul_one, eq_self_iff_true,
    and_self]
  refine ⟨?_, ?_, ?_⟩
  · intro hpos
    constructor
    · intro hr5
      simp only [hpos, eq_self_iff_true, if_true, reduceIte]
      rw [if_neg (by omega)]
      rw [getToken_finishMove _ _ _ _ _ _ _ _ (getToken_setTok _ _ _ (by exact htid) _ hg)]
      rw [if_pos (by simpa using hown)]
      simp [decayToken_status, decayToken_position]
      omega
    · intro hr6eq
      simp only [hpos, eq_self_iff_true, if_true, reduceIte]
      rw [if_pos (by omega)]
      rw [getToken_finishMove _ _ _ _ _ _ _ _ (getToken_setTok _ _ _ (by exact htid) _ hg)]
      rw [if_pos (by simpa using hown)]
      simp [decayToken_status, decayToken_position]
  · intro hd0 hdr
    have h1 : ¬(token.position = getTurningIndex (↑j) 4) := by
      intro hEq
      rw [hEq] at hd0
      omega
    rw [if_neg h1]
    by_cases h2 : token.position = (getTurningIndex (↑j) 4 - 1 + 52) % 52
    · have hdist1 : (getTurningIndex (↑j) 4 - token.position + 52) % 52 = 1 := by
        rw [h2]
        omega
      rw [if_pos h2, if_pos (show r ≥ 2 by omega)]
      simp only [reduceIte, eq_self_iff_true, if_true]
      rw [if_neg (by omega)]
      rw [getToken_finishMove _ _ _ _ _ _ _ _ (getToken_setTok _ _ _ (by exact htid) _ hg)]
      rw [if_pos (by simpa using hown)]
      simp [decayToken_status, decayToken_position]
      omega
    · rw [if_neg h2]
      have h3 : token.position ≠ getStartPosition (↑j) 4 := by
        intro hEq
        rw [hEq] at hdr
        omega
      have h4 : token.position ≠ getSkippedIndex (↑j) 4 := by
        intro hEq
        rw [hEq, hK] at hdr
        omega
      have hc1 : token.position ≠ getStartPosition (↑j) 4 ∧
          token.position ≠ getTurningIndex (↑j) 4 ∧
          token.position ≠ getSkippedIndex (↑j) 4 := ⟨h3, h1, h4⟩
      have hc2 : (getTurningIndex (↑j) 4 - token.position + 52) % 52 < r ∧
          (getTurningIndex (↑j) 4 - token.position + 52) % 52 > 0 := ⟨hdr, hd0⟩
      rw [if_pos hc1, if_pos hc2]
      simp only [reduceIte, eq_self_iff_true, if_true]
      rw [if_neg (by omega)]
      rw [getToken_finishMove _ _ _ _ _ _ _ _ (getToken_setTok _ _ _ (by exact htid) _ hg)]
      rw [if_pos (by simpa using hown)]
      simp [decayToken_status, decayToken_position]
      omega
  · intro hdr
    have h1 : ¬(token.position = getTurningIndex (↑j) 4) := by
      intro hEq
      rw [hEq] at hdr
      omega
    rw [if_neg h1]
    have hclose : ∀ nt2 : List Token, getToken nt2 tid = some token →
        ∀ (s1 : GameState) (b : Bool),
        Option.map (fun t => (t.status, t.position))
          (getToken (finishMove shuffle gen cp.id s1
            (setTok nt2 tid
              { (getToken nt2 tid).getD token with
                position := (token.position + r + 52) % 52 }) b).tokens tid) =
          some (TokenStatus.ACTIVE, getTurningIndex (↑j) 4) := by
      intro nt2 hnt2 s1 b
      rw [hnt2, Option.getD_some]
      rw [getToken_finishMove _ _ _ _ _ _ _ _ (getToken_setTok _ _ _ (by exact htid) _ hnt2)]
      rw [if_pos (by simpa using hown)]
      simp [decayToken_status, decayToken_position, hst]
      omega
    by_cases h2 : token.position = (getTurningIndex (↑j) 4 - 1 + 52) % 52
    · have hdist1 : (getTurningIndex (↑j) 4 - token.position + 52) % 52 = 1 := by
        rw [h2]
        omega
      rw [if_pos h2, if_neg (show ¬(r ≥ 2) by omega)]
      simp only [reduceIte, Bool.false_eq_true, if_false]
      by_cases hph : token.isPhased = false
      · simp only [hph, eq_self_iff_true, if_true, reduceIte]
        rcases hcol : s.tokens.find? (fun t =>
            t.position == (token.position + r + 52) % 52 &&
            t.status == TokenStatus.ACTIVE && t.id != tid) with _ | ct
        · simp only [hcol]
          exact hclose s.tokens hg _ _
        · simp only [hcol]
          by_cases hcc : ct.playerId ≠ token.playerId ∧
              (isSafeZone ((token.position + r + 52) % 52) 4 ||
                decide (token.safePassageMovesRemaining > 0)) = false
          · rw [if_pos hcc]
            by_cases hinv : (ct.isInvulnerable || ct.isImmune) = true
            · rw [if_pos hinv]
              exact hclose s.tokens hg _ _
            · rw [if_neg hinv]
              have hctid : (ct.id == tid) = false := by
                have hp := List.find?_some (p := fun t : Token =>
                  t.position == (token.position + r + 52) % 52 &&
                  t.status == TokenStatus.ACTIVE && t.id != tid) hcol
                simp only [Bool.and_eq_true, bne_iff_ne, ne_eq] at hp
                simp [hp.2]
              have hnt2 : getToken (setTok s.tokens ct.id
                  { ct with status := .BASE, position := -1 }) tid = some token := by
                rw [getToken_setTok_other _ _ _ _ (by exact hctid) (by exact hctid)]
                exact hg
              exact hclose _ hnt2 _ _
          · rw [if_neg hcc]
            exact hclose s.tokens hg _ _
      · rw [if_neg hph]
        exact hclose s.tokens hg _ _
    · rw [if_neg h2]
      have h3 : token.position ≠ getStartPosition (↑j) 4 := by
        intro hEq
        rw [hEq] at hdr
        omega
      have h4 : token.position ≠ getSkippedIndex (↑j) 4 := by
        intro hEq
        rw [hEq, hK] at hdr
        omega
      have hc1 : token.position ≠ getStartPosition (↑j) 4 ∧
          token.position ≠ getTurningIndex (↑j) 4 ∧
          token.position ≠ getSkippedIndex (↑j) 4 := ⟨h3, h1, h4⟩
      rw [if_pos hc1, if_neg (show ¬((getTurningIndex (↑j) 4 - token.position + 52) % 52 < r ∧
          (getTurningIndex (↑j) 4 - token.position + 52) % 52 > 0) by omega)]
      simp only [reduceIte, Bool.false_eq_true, if_false]
      by_cases hph : token.isPhased = false
      · simp only [hph, eq_self_iff_true, if_true, reduceIte]
        rcases hcol : s.tokens.find? (fun t =>
            t.position == (token.position + r + 52) % 52 &&
            t.status == TokenStatus.ACTIVE && t.id != tid) with _ | ct
        · simp only [hcol]
          exact hclose s.tokens hg _ _
        · simp only [hcol]
          by_cases hcc : ct.playerId ≠ token.playerId ∧
              (isSafeZone ((token.position + r + 52) % 52) 4 ||
                decide (token.safePassageMovesRemaining > 0)) = false
          · rw [if_pos hcc]
            by_cases hinv : (ct.isInvulnerable || ct.isImmune) = true
            · rw [if_pos hinv]
              exact hclose s.tokens hg _ _
            · rw [if_neg hinv]
              have hctid : (ct.id == tid) = false := by
                have hp := List.find?_some (p := fun t : Token =>
                  t.position == (token.position + r + 52) % 52 &&
                  t.status == TokenStatus.ACTIVE && t.id != tid) hcol
                simp only [Bool.and_eq_true, bne_iff_ne, ne_eq] at hp
                simp [hp.2]
              have hnt2 : getToken (setTok s.tokens ct.id
                  { ct with status := .BASE, position := -1 }) tid = some token := by
                rw [getToken_setTok_other _ _ _ _ (by exact hctid) (by exact hctid)]
                exact hg
              exact hclose _ hnt2 _ _
          · rw [if_neg hcc]
            exact hclose s.tokens hg _ _
      · rw [if_neg hph]
        exact hclose s.tokens hg _ _

/-- Claim C2: the home-stretch entry rule for a current-player ACTIVE,
non-reversed token with no queued modifiers, on the 4-player board.  With
`T` the player's turning index and `dist` the shared-track distance from the
old position to `T`:  from `T` itself any roll `r` enters the lane at `r − 1`
(finishing at 5 when that reaches 5, i.e. on a 6); with `0 < dist < r` the
token enters at `r − dist − 1`; with `dist = r` it lands on `T` and stays
ACTIVE on the shared track. -/
theorem C2_home_stretch_entry_rule (shuffle : List Int → List Int) (gen : Nat → PowerUp)
    (s : GameState) (tid : String) (token : Token) (cp : Player) (r : Int) (j : Nat)
    (hg : getToken s.tokens tid = some token)
    (hd : s.diceRoll = some r) (hr1 : 1 ≤ r) (hr6 : r ≤ 6)
    (hcur : jsGet s.players s.currentPlayerIndex = some cp)
    (hown : token.playerId = cp.id)
    (hfro : ¬(token.frozenTurnsRemaining > 0))
    (hst : token.status = .ACTIVE)
    (hrev : token.isReversed = false)
    (hdm : token.doubleMoveNext = false)
    (hex : token.exactMoveValue = none)
    (hpc : s.boardConfig.playerCount = 4)
    (hj : s.players.findIdx? (fun p => p.id == token.playerId) = some j)
    (hj4 : j < 4)
    (hpos0 : 0 ≤ token.position) (hpos52 : token.position < 52) :
    (token.position = getTurningIndex (j : Int) 4 →
      (r ≤ 5 → (getToken (moveToken shuffle gen tid s).tokens tid).map
          (fun t => (t.status, t.position)) = some (.HOME_STRETCH, r - 1)) ∧
      (r = 6 → (getToken (moveToken shuffle gen tid s).tokens tid).map
          (fun t => (t.status, t.position)) = some (.FINISHED, 5))) ∧
    (0 < (getTurningIndex (j : Int) 4 - token.position + 52) % 52 →
      (getTurningIndex (j : Int) 4 - token.position + 52) % 52 < r →
      (getToken (moveToken shuffle gen tid s).tokens tid).map
          (fun t => (t.status, t.position)) =
        some (.HOME_STRETCH,
          r - (getTurningIndex (j : Int) 4 - token.position + 52) % 52 - 1)) ∧
    ((getTurningIndex (j : Int) 4 - token.position + 52) % 52 = r →
      (getToken (moveToken shuffle gen tid s).tokens tid).map
          (fun t => (t.status, t.position)) =
        some (.ACTIVE, getTurningIndex (j : Int) 4)) := by
  interval_cases j
  · exact moveToken_entry_core shuffle gen s tid token cp r 0 hg hd hr1 hr6 hcur hown
      hfro hst hrev hdm hex hpc hj (by decide) (by decide) (by decide) (by decide)
      hpos0 hpos52
  · exact moveToken_entry_core shuffle gen s tid token cp r 1 hg hd hr1 hr6 hcur hown
      hfro hst hrev hdm hex hpc hj (by decide) (by decide) (by decide) (by decide)
      hpos0 hpos52
  · exact moveToken_entry_core shuffle gen s tid token cp r 2 hg hd hr1 hr6 hcur hown
      hfro hst hrev hdm hex hpc hj (by decide) (by decide) (by decide) (by decide)
      hpos0 hpos52
  · exact moveToken_entry_core shuffle gen s tid token cp r 3 hg hd hr1 hr6 hcur hown
      hfro hst hrev hdm hex hpc hj (by decide) (by decide) (by decide) (by decide)
      hpos0 hpos52

/-- Witness for `C2_home_stretch_entry_rule`: player 0's token at square 47
(distance 3 from the turning index 50) rolling a 5 enters the home stretch at
lane position 5 − 3 − 1 = 1. -/
theorem C2_witness :
    (getToken (moveToken idShuffle teleportGen "p0_t0"
        (movingState [mkToken "p0_t0" "p0" 47 .ACTIVE] 5)).tokens "p0_t0").map
      (fun t => (t.status, t.position)) = some (.HOME_STRETCH, 1) := by
  have h := (C2_home_stretch_entry_rule idShuffle teleportGen
      (movingState [mkToken "p0_t0" "p0" 47 .ACTIVE] 5) "p0_t0"
      (mkToken "p0_t0" "p0" 47 .ACTIVE)
      { id := "p0", name := "Player 1", color := "#FF0000", powerUps := [] } 5 0
      (by decide) (by decide) (by decide) (by decide) (by decide) (by decide)
      (by decide) (by decide) (by decide) (by decide) (by decide) (by decide)
      (by decide) (by decide) (by decide) (by decide)).2.1 (by decide) (by decide)
  simpa using h

/-- Claim C9: `setDiceRoll` draws from the biased distribution — 6 exactly on
`u < 0.25`, and each `k ∈ 1..5` on the interval
`[0.25 + (k−1)·0.15, 0.25 + k·0.15)` — if and only if every one of the
current player's tokens is in BASE; with at least one non-BASE token the roll
is uniform: each `k ∈ 1..6` on `[(k−1)/6, k/6)`. -/
theorem C9_dice_distribution (s : GameState) (u : ℚ) (player : Player)
    (hcur : jsGet s.players s.currentPlayerIndex = some player)
    (hne : s.tokens.filter (fun t => t.playerId == player.id) ≠ [])
    (hu0 : 0 ≤ u) (hu1 : u < 1) :
    ((∀ t ∈ s.tokens.filter (fun t => t.playerId == player.id), t.status = .BASE) →
      (((setDiceRoll u s).diceRoll = some 6) ↔ u < 1/4) ∧
      (∀ k : Int, 1 ≤ k → k ≤ 5 →
        (((setDiceRoll u s).diceRoll = some k) ↔
          (1/4 + ((k : ℚ) - 1) * (3/20) ≤ u ∧ u < 1/4 + (k : ℚ) * (3/20))))) ∧
    ((∃ t ∈ s.tokens.filter (fun t => t.playerId == player.id), t.status ≠ .BASE) →
      (∀ k : Int, 1 ≤ k → k ≤ 6 →
        (((setDiceRoll u s).diceRoll = some k) ↔
          (((k : ℚ) - 1) / 6 ≤ u ∧ u < (k : ℚ) / 6)))) := by
  have hroll : (setDiceRoll u s).diceRoll = some
      (if (decide ((s.tokens.filter (fun t => t.playerId == player.id)).length > 0) &&
          (s.tokens.filter (fun t => t.playerId == player.id)).all
            (fun t => t.status == TokenStatus.BASE)) = true then
        (if u < 1/4 then 6 else ⌊(u - 1/4) / (3/20)⌋ + 1)
      else ⌊u * 6⌋ + 1) := by
    unfold setDiceRoll
    simp only [hcur]
    repeat' split
    all_goals rfl
  constructor
  · intro hlock
    have hall : ((s.tokens.filter (fun t => t.playerId == player.id)).all
        (fun t => t.status == TokenStatus.BASE)) = true := by
      rw [List.all_eq_true]
      intro t ht
      simpa using hlock t ht
    have hlen : decide ((s.tokens.filter (fun t => t.playerId == player.id)).length > 0) = true := by
      simp only [decide_eq_true_eq]
      exact List.length_pos.mpr hne
    rw [hall, hlen] at hroll
    simp only [Bool.and_self, if_true, reduceIte] at hroll
    constructor
    · rw [hroll]
      by_cases hu4 : u < 1/4
      · rw [if_pos hu4]
        simp only [Option.some_inj]
        exact ⟨fun _ => hu4, fun _ => trivial⟩
      · rw [if_neg hu4]
        simp only [Option.some_inj]
        constructor
        · intro hfl
          exfalso
          have h5 : (u - 1/4) / (3/20) < 5 := by
            rw [div_lt_iff₀ (by norm_num : (0:ℚ) < 3/20)]
            linarith
          have h6 : ⌊(u - 1/4) / (3/20)⌋ < 5 := by
            rw [Int.floor_lt]
            push_cast
            exact h5
          omega
        · intro h
          exact absurd h hu4
    · intro k hk1 hk5
      rw [hroll]
      by_cases hu4 : u < 1/4
      · rw [if_pos hu4]
        simp only [Option.some_inj]
        constructor
        · intro h6; omega
        · rintro ⟨ha, hb⟩
          exfalso
          have : (0:ℚ) ≤ ((k:ℚ) - 1) * (3/20) := by
            apply mul_nonneg
            · have : (1:ℚ) ≤ (k:ℚ) := by exact_mod_cast hk1
              linarith
            · norm_num
          linarith
      · rw [if_neg hu4]
        simp only [Option.some_inj]
        rw [show (⌊(u - 1/4) / (3/20)⌋ + 1 = k) ↔ (⌊(u - 1/4) / (3/20)⌋ = k - 1) by omega]
        rw [Int.floor_eq_iff]
        push_cast
        rw [div_lt_iff₀ (by norm_num : (0:ℚ) < 3/20), le_div_iff₀ (by norm_num : (0:ℚ) < 3/20)]
        constructor
        · rintro ⟨ha, hb⟩
          constructor <;> linarith
        · rintro ⟨ha, hb⟩
          constructor <;> linarith
  · intro hexists
    have hall : ((s.tokens.filter (fun t => t.playerId == player.id)).all
        (fun t => t.status == TokenStatus.BASE)) = false := by
      rcases hexists with ⟨t, ht, hstat⟩
      rw [List.all_eq_false]
      exact ⟨t, ht, by simpa using hstat⟩
    rw [hall] at hroll
    simp only [Bool.and_false, Bool.false_eq_true, if_false, reduceIte] at hroll
    intro k hk1 hk6
    rw [hroll]
    simp only [Option.some_inj]
    rw [show (⌊u * 6⌋ + 1 = k) ↔ (⌊u * 6⌋ = k - 1) by omega]
    rw [Int.floor_eq_iff]
    push_cast
    constructor
    · rintro ⟨ha, hb⟩
      constructor
      · rw [div_le_iff₀ (by norm_num : (0:ℚ) < 6)]
        linarith
      · rw [lt_div_iff₀ (by norm_num : (0:ℚ) < 6)]
        linarith
    · rintro ⟨ha, hb⟩
      rw [div_le_iff₀ (by norm_num : (0:ℚ) < 6)] at ha
      rw [lt_div_iff₀ (by norm_num : (0:ℚ) < 6)] at hb
      constructor <;> linarith

/-- All of player 0's tokens in BASE (for the biased-roll witness). -/
def allBaseState : GameState :=
  { initialState with
      players := fourPlayers
      tokens := [mkToken "p0_t0" "p0" (-1) .BASE, mkToken "p0_t1" "p0" (-1) .BASE,
                 mkToken "p0_t2" "p0" (-1) .BASE, mkToken "p0_t3" "p0" (-1) .BASE]
      phase := .ROLLING }

/-- Witness for `C9_dice_distribution`: with every token in BASE and
`u = 1/8 < 0.25`, the roll is 6. -/
theorem C9_witness : (setDiceRoll (1/8) allBaseState).diceRoll = some 6 :=
  ((C9_dice_distribution allBaseState (1/8)
      { id := "p0", name := "Player 1", color := "#FF0000", powerUps := [] }
      (by decide) (by decide) (by norm_num) (by norm_num)).1
    (by decide)).1.mpr (by norm_num)

/-- For the standard 4-player seating, advancing the turn always selects a
different player. -/
theorem nextTurn_changes_index (shuffle : List Int → List Int) (gen : Nat → PowerUp)
    (s : GameState) (h4 : s.players.length = 4)
    (h0 : 0 ≤ s.currentPlayerIndex) (hlt : s.currentPlayerIndex < 4) :
    (nextTurn shuffle gen s).currentPlayerIndex ≠ s.currentPlayerIndex := by
  unfold nextTurn
  simp only [h4]
  interval_cases h : s.currentPlayerIndex <;> decide

theorem finishMove_index_bonus (shuffle : List Int → List Int) (gen : Nat → PowerUp)
    (cpid : String) (s1 : GameState) (nt : List Token) :
    (finishMove shuffle gen cpid s1 nt false).currentPlayerIndex = s1.currentPlayerIndex := by
  unfold finishMove
  simp

theorem finishMove_index_ends (shuffle : List Int → List Int) (gen : Nat → PowerUp)
    (cpid : String) (s1 : GameState) (nt : List Token)
    (hp : s1.pendingPowerUpCollection = none) (h4 : s1.players.length = 4)
    (h0 : 0 ≤ s1.currentPlayerIndex) (hlt : s1.currentPlayerIndex < 4) :
    (finishMove shuffle gen cpid s1 nt true).currentPlayerIndex ≠ s1.currentPlayerIndex := by
  unfold finishMove
  simp only [hp, Option.isSome_none, Bool.not_false, Bool.and_true, if_true, reduceIte]
  exact nextTurn_changes_index shuffle gen _ (by simpa using h4) (by simpa using h0)
    (by simpa using hlt)

set_option maxHeartbeats 1600000 in
/-- Claim C1, amended: for a current-player ACTIVE token (no queued modifiers)
whose move stays on the shared track, with the first other ACTIVE token found
at the destination being an opposing one: the occupant is captured (sent to
BASE at the sentinel position) and the mover keeps the turn, UNLESS the
destination is a safe zone, or the MOVER has temporary safe-passage
(the engine tests the mover's counter, not the occupant's — see
`C1_counterexample`), or the occupant is invulnerable or immune (then no
capture and the turn passes to the next player even on a roll of 6), or the
mover itself is phased (capture check skipped, occupant untouched).  Each
exception is proved to protect: a safe-zone destination (4th conjunct) and a
positive mover safe-passage counter (5th conjunct) leave the occupant exactly
as it was, with the ordinary turn rule (a roll of 6 keeps the turn, any other
roll passes it) — unlike the invulnerable/immune block, which forfeits the
bonus even on a 6; a phased mover (3rd conjunct) also leaves the occupant
untouched. -/
theorem C1_amended_capture_rule (shuffle : List Int → List Int) (gen : Nat → PowerUp)
    (s : GameState) (tid : String) (token ct : Token) (cp : Player) (r : Int) (j : Nat)
    (hg : getToken s.tokens tid = some token)
    (hd : s.diceRoll = some r) (hr1 : 1 ≤ r) (hr6 : r ≤ 6)
    (hcur : jsGet s.players s.currentPlayerIndex = some cp)
    (hown : token.playerId = cp.id)
    (hfro : ¬(token.frozenTurnsRemaining > 0))
    (hst : token.status = .ACTIVE)
    (hrev : token.isReversed = false)
    (hdm : token.doubleMoveNext = false)
    (hex : token.exactMoveValue = none)
    (hpc : s.boardConfig.playerCount = 4)
    (hj : s.players.findIdx? (fun p => p.id == token.playerId) = some j) (hj4 : j < 4)
    (hpos0 : 0 ≤ token.position) (hpos52 : token.position < 52)
    (hstay : r ≤ (getTurningIndex (j : Int) 4 - token.position + 52) % 52)
    (hcol : s.tokens.find? (fun t =>
        t.position == (token.position + r + 52) % 52 &&
        t.status == TokenStatus.ACTIVE && t.id != tid) = some ct)
    (hctfind : getToken s.tokens ct.id = some ct)
    (hopp : ct.playerId ≠ token.playerId)
    (hplayers4 : s.players.length = 4)
    (hcpi0 : 0 ≤ s.currentPlayerIndex) (hcpi4 : s.currentPlayerIndex < 4)
    (hpend : s.pendingPowerUpCollection = none)
    (hpu : lookupPU s.powerUpsOnBoard ((token.position + r + 52) % 52) = none) :
    (isSafeZone ((token.position + r + 52) % 52) 4 = false →
      ¬(token.safePassageMovesRemaining > 0) →
      ct.isInvulnerable = false → ct.isImmune = false → token.isPhased = false →
      (getToken (moveToken shuffle gen tid s).tokens ct.id).map
        (fun t => (t.status, t.position)) = some (.BASE, -1) ∧
      (moveToken shuffle gen tid s).currentPlayerIndex = s.currentPlayerIndex) ∧
    (isSafeZone ((token.position + r + 52) % 52) 4 = false →
      ¬(token.safePassageMovesRemaining > 0) →
      (ct.isInvulnerable = true ∨ ct.isImmune = true) → token.isPhased = false →
      getToken (moveToken shuffle gen tid s).tokens ct.id = some ct ∧
      (moveToken shuffle gen tid s).currentPlayerIndex ≠ s.currentPlayerIndex) ∧
    (token.isPhased = true →
      getToken (moveToken shuffle gen tid s).tokens ct.id = some ct) ∧
    (isSafeZone ((token.position + r + 52) % 52) 4 = true → token.isPhased = false →
      getToken (moveToken shuffle gen tid s).tokens ct.id = some ct ∧
      (r = 6 → (moveToken shuffle gen tid s).currentPlayerIndex = s.currentPlayerIndex) ∧
      (r ≠ 6 → (moveToken shuffle gen tid s).currentPlayerIndex ≠ s.currentPlayerIndex)) ∧
    (token.safePassageMovesRemaining > 0 → token.isPhased = false →
      getToken (moveToken shuffle gen tid s).tokens ct.id = some ct ∧
      (r = 6 → (moveToken shuffle gen tid s).currentPlayerIndex = s.currentPlayerIndex) ∧
      (r ≠ 6 → (moveToken shuffle gen tid s).currentPlayerIndex ≠ s.currentPlayerIndex)) := by
  have htid : (token.id == tid) = true := by
    have h1 := hg
    unfold getToken at h1
    exact List.find?_some (p := fun t : Token => t.id == tid) h1
  have htokid : token.id = tid := by simpa using htid
  have hT : 0 ≤ getTurningIndex (j : Int) 4 ∧ getTurningIndex (j : Int) 4 < 52 := by
    interval_cases j <;> exact ⟨by decide, by decide⟩
  have hT0 := hT.1
  have hT52 := hT.2
  have hctne : ct.id ≠ tid := by
    have hp := List.find?_some (p := fun t : Token =>
      t.position == (token.position + r + 52) % 52 &&
      t.status == TokenStatus.ACTIVE && t.id != tid) hcol
    simp only [Bool.and_eq_true, bne_iff_ne, ne_eq] at hp
    exact hp.2
  have hbe1 : (ct.id == tid) = false := by simp [hctne]
  have hbe2 : (tid == ct.id) = false := by
    have hne2 : tid ≠ ct.id := fun h => hctne h.symm
    simp [hne2]
  have hmvid : (token.id == ct.id) = false := by
    rw [htokid]
    exact hbe2
  have hcpne : ct.playerId ≠ cp.id := by
    rw [← hown]
    exact hopp
  have hcpbe : (ct.playerId == cp.id) = false := by simp [hcpne]
  unfold moveToken
  simp only [hg, hd, hcur]
  rw [if_neg (by simp [hown]), if_neg hfro]
  simp only [hst, hpc, hj, hdm, hex, hrev, getTrackLength, Option.getD_some,
    Bool.false_eq_true, if_true, if_false, reduceIte, mul_one, eq_self_iff_true,
    and_self, hpu, Option.isSome_none, Bool.and_false]
  have h1 : ¬(token.position = getTurningIndex (↑j) 4) := by
    intro hEq
    rw [hEq] at hstay
    omega
  have hent : (if token.position = getTurningIndex (↑j) 4 then ((true, r) : Bool × Int)
      else if token.position = (getTurningIndex (↑j) 4 - 1 + 52) % 52 then
        (if r ≥ 2 then (true, r - 1) else (false, 0))
      else if token.position ≠ getStartPosition (↑j) 4 ∧
          token.position ≠ getTurningIndex (↑j) 4 ∧
          token.position ≠ getSkippedIndex (↑j) 4 then
        (if (getTurningIndex (↑j) 4 - token.position + 52) % 52 < r ∧
            (getTurningIndex (↑j) 4 - token.position + 52) % 52 > 0 then
          (true, r - (getTurningIndex (↑j) 4 - token.position + 52) % 52)
        else (false, 0))
      else (false, 0)) = (false, 0) := by
    rw [if_neg h1]
    by_cases h2 : token.position = (getTurningIndex (↑j) 4 - 1 + 52) % 52
    · have hdist1 : (getTurningIndex (↑j) 4 - token.position + 52) % 52 = 1 := by
        rw [h2]
        omega
      rw [if_pos h2, if_neg (show ¬(r ≥ 2) by omega)]
    · rw [if_neg h2]
      by_cases h3 : token.position ≠ getStartPosition (↑j) 4 ∧
          token.position ≠ getTurningIndex (↑j) 4 ∧
          token.position ≠ getSkippedIndex (↑j) 4
      · rw [if_pos h3, if_neg (show ¬((getTurningIndex (↑j) 4 - token.position + 52) % 52 < r ∧
            (getTurningIndex (↑j) 4 - token.position + 52) % 52 > 0) by omega)]
      · rw [if_neg h3]
  rw [hent]
  simp only [reduceIte, Bool.false_eq_true, if_false]
  refine ⟨?_, ?_, ?_, ?_, ?_⟩
  · intro hsz hsp hinv himu hph
    rw [if_pos hph]
    simp only [hcol]
    have hsafe : (isSafeZone ((token.position + r + 52) % 52) 4 ||
        decide (token.safePassageMovesRemaining > 0)) = false := by
      rw [hsz]
      simp [hsp]
    have hccond : ct.playerId ≠ token.playerId ∧
        (isSafeZone ((token.position + r + 52) % 52) 4 ||
          decide (token.safePassageMovesRemaining > 0)) = false := ⟨hopp, hsafe⟩
    rw [if_pos hccond,
      if_neg (show ¬((ct.isInvulnerable || ct.isImmune) = true) by simp [hinv, himu])]
    have hlook2 : getToken (setTok s.tokens ct.id
        { ct with status := .BASE, position := -1 }) tid = some token := by
      rw [getToken_setTok_other _ _ _ _ (by exact hbe1) (by exact hbe1)]
      exact hg
    constructor
    · simp only [hlook2, Option.getD_some]
      have hlookct : getToken (setTok (setTok s.tokens ct.id
          { ct with status := .BASE, position := -1 }) tid
          { token with position := (token.position + r + 52) % 52 }) ct.id =
          some { ct with status := .BASE, position := -1 } := by
        rw [getToken_setTok_other _ _ _ _ (by exact hmvid) (by exact hbe2)]
        exact getToken_setTok _ _ _ (by simp) _ hctfind
      rw [getToken_finishMove _ _ _ _ _ _ _ _ hlookct]
      rw [if_neg (by simp [hcpne])]
      rfl
    · rw [ite_self]
      exact finishMove_index_bonus shuffle gen cp.id s _
  · intro hsz hsp hprot hph
    rw [if_pos hph]
    simp only [hcol]
    have hsafe : (isSafeZone ((token.position + r + 52) % 52) 4 ||
        decide (token.safePassageMovesRemaining > 0)) = false := by
      rw [hsz]
      simp [hsp]
    have hccond : ct.playerId ≠ token.playerId ∧
        (isSafeZone ((token.position + r + 52) % 52) 4 ||
          decide (token.safePassageMovesRemaining > 0)) = false := ⟨hopp, hsafe⟩
    rw [if_pos hccond,
      if_pos (show (ct.isInvulnerable || ct.isImmune) = true by
        rcases hprot with h | h <;> simp [h])]
    constructor
    · simp only [hg, Option.getD_some]
      have hlookct : getToken (setTok s.tokens tid
          { token with position := (token.position + r + 52) % 52 }) ct.id = some ct := by
        rw [getToken_setTok_other _ _ _ _ (by exact hmvid) (by exact hbe2)]
        exact hctfind
      rw [getToken_finishMove _ _ _ _ _ _ _ _ hlookct]
      rw [if_neg (by simp [hcpne])]
    · simp only [Bool.true_eq_false, and_false, if_false, reduceIte]
      exact finishMove_index_ends shuffle gen cp.id s _ hpend hplayers4 hcpi0 hcpi4
  · intro hph3
    rw [if_neg (by simp [hph3])]
    simp only [hg, Option.getD_some]
    have hlookct : getToken (setTok s.tokens tid
        { token with position := (token.position + r + 52) % 52 }) ct.id = some ct := by
      rw [getToken_setTok_other _ _ _ _ (by exact hmvid) (by exact hbe2)]
      exact hctfind
    rw [getToken_finishMove _ _ _ _ _ _ _ _ hlookct]
    rw [if_neg (by simp [hcpne])]
  · intro hsz hph
    rw [if_pos hph]
    simp only [hcol]
    have hsafe_t : (isSafeZone ((token.position + r + 52) % 52) 4 ||
        decide (token.safePassageMovesRemaining > 0)) = true := by
      rw [hsz]
      simp
    rw [if_neg (show ¬(ct.playerId ≠ token.playerId ∧
        (isSafeZone ((token.position + r + 52) % 52) 4 ||
          decide (token.safePassageMovesRemaining > 0)) = false) by
      intro hcc
      rw [hsafe_t] at hcc
      exact absurd hcc.2 (by decide))]
    refine ⟨?_, ?_, ?_⟩
    · simp only [hg, Option.getD_some]
      have hlookct : getToken (setTok s.tokens tid
          { token with position := (token.position + r + 52) % 52 }) ct.id = some ct := by
        rw [getToken_setTok_other _ _ _ _ (by exact hmvid) (by exact hbe2)]
        exact hctfind
      rw [getToken_finishMove _ _ _ _ _ _ _ _ hlookct]
      rw [if_neg (by simp [hcpne])]
    · intro hr6eq
      rw [if_pos (by exact ⟨hr6eq, rfl⟩)]
      exact finishMove_index_bonus shuffle gen cp.id s _
    · intro hr6ne
      rw [if_neg (by simp [hr6ne])]
      exact finishMove_index_ends shuffle gen cp.id s _ hpend hplayers4 hcpi0 hcpi4
  · intro hspp hph
    rw [if_pos hph]
    simp only [hcol]
    have hsafe_t : (isSafeZone ((token.position + r + 52) % 52) 4 ||
        decide (token.safePassageMovesRemaining > 0)) = true := by
      simp [hspp]
    rw [if_neg (show ¬(ct.playerId ≠ token.playerId ∧
        (isSafeZone ((token.position + r + 52) % 52) 4 ||
          decide (token.safePassageMovesRemaining > 0)) = false) by
      intro hcc
      rw [hsafe_t] at hcc
      exact absurd hcc.2 (by decide))]
    refine ⟨?_, ?_, ?_⟩
    · simp only [hg, Option.getD_some]
      have hlookct : getToken (setTok s.tokens tid
          { token with position := (token.position + r + 52) % 52 }) ct.id = some ct := by
        rw [getToken_setTok_other _ _ _ _ (by exact hmvid) (by exact hbe2)]
        exact hctfind
      rw [getToken_finishMove _ _ _ _ _ _ _ _ hlookct]
      rw [if_neg (by simp [hcpne])]
    · intro hr6eq
      rw [if_pos (by exact ⟨hr6eq, rfl⟩)]
      exact finishMove_index_bonus shuffle gen cp.id s _
    · intro hr6ne
      rw [if_neg (by simp [hr6ne])]
      exact finishMove_index_ends shuffle gen cp.id s _ hpend hplayers4 hcpi0 hcpi4

/-- Mover of player 0 at square 27; an unprotected opposing ACTIVE token sits
on the destination square 28. -/
def captureProbeTokens : List Token :=
  [ mkToken "p0_t0" "p0" 27 .ACTIVE, mkToken "p1_t0" "p1" 28 .ACTIVE ]

/-- Witness for `C1_amended_capture_rule`: the unprotected occupant of square
28 is captured and player 0 keeps the turn. -/
theorem C1_amended_witness :
    (getToken (moveToken idShuffle teleportGen "p0_t0"
        (movingState captureProbeTokens 1)).tokens "p1_t0").map
      (fun t => (t.status, t.position)) = some (.BASE, -1) ∧
    (moveToken idShuffle teleportGen "p0_t0"
        (movingState captureProbeTokens 1)).currentPlayerIndex = 0 :=
  (C1_amended_capture_rule idShuffle teleportGen (movingState captureProbeTokens 1)
      "p0_t0" (mkToken "p0_t0" "p0" 27 .ACTIVE) (mkToken "p1_t0" "p1" 28 .ACTIVE)
      { id := "p0", name := "Player 1", color := "#FF0000", powerUps := [] } 1 0
      (by decide) (by decide) (by decide) (by decide) (by decide) (by decide)
      (by decide) (by decide) (by decide) (by decide) (by decide) (by decide)
      (by decide) (by decide) (by decide) (by decide) (by decide) (by decide)
      (by decide) (by decide) (by decide) (by decide) (by decide) (by decide)
      (by decide)).1
    (by decide) (by decide) (by decide) (by decide) (by decide)

/-- The bounded-inventory property of claim C3. -/
def InventoryBound (s : GameState) : Prop :=
  ∀ p ∈ s.players, p.powerUps.length ≤ 3

theorem length_eraseIdx_le (l : List α) (i : Nat) : (l.eraseIdx i).length ≤ l.length := by
  rw [List.length_eraseIdx]
  split <;> omega

theorem inventoryBound_set (players : List Player) (i : Nat) (pl : Player)
    (pus : List PowerUp) (hinv : ∀ p ∈ players, p.powerUps.length ≤ 3)
    (hlen : pus.length ≤ 3) :
    ∀ p ∈ players.set i { pl with powerUps := pus }, p.powerUps.length ≤ 3 := by
  intro q hq
  rcases List.mem_or_eq_of_mem_set hq with hq | rfl
  · exact hinv q hq
  · simpa using hlen

theorem setDiceRoll_players (u : ℚ) (s : GameState) :
    (setDiceRoll u s).players = s.players := by
  unfold setDiceRoll
  rcases hcur : jsGet s.players s.currentPlayerIndex with _ | player
  · simp only [hcur]
  · simp only [hcur]
    repeat' split
    all_goals rfl

theorem setDiceRollValue_players (v : Int) (s : GameState) :
    (setDiceRollValue v s).players = s.players := by
  unfold setDiceRollValue
  split
  · rfl
  · rcases hcur : jsGet s.players s.currentPlayerIndex with _ | player
    · simp only [hcur]
    · simp only [hcur]
      repeat' split
      all_goals rfl

theorem initGame_inv (shuffle : List Int → List Int) (gen : Nat → PowerUp)
    (playerCount : Int) (s : GameState) : InventoryBound (initGame shuffle gen playerCount s) := by
  intro p hp
  unfold initGame at hp
  simp only [List.mem_map] at hp
  obtain ⟨i, _, rfl⟩ := hp
  simp

theorem collectPowerUp_inv (position : Int) (playerId : String) (s : GameState)
    (hinv : InventoryBound s) : InventoryBound (collectPowerUp position playerId s) := by
  unfold collectPowerUp
  rcases hf : s.players.findIdx? (fun p => p.id == playerId) with _ | i <;> simp only [hf]
  · exact hinv
  · rcases hget : s.players[i]? with _ | player <;> simp only [hget]
    · exact hinv
    · rcases hpu : lookupPU s.powerUpsOnBoard position with _ | pu <;> simp only [hpu]
      · exact hinv
      · by_cases h3 : player.powerUps.length ≥ 3
        · rw [if_pos h3]
          exact hinv
        · rw [if_neg h3]
          intro q hq
          exact inventoryBound_set s.players i player _ hinv
            (by simp only [List.length_append, List.length_singleton]; omega) q hq

theorem discardPowerUp_inv (playerId : String) (powerUpIndex : Int) (s : GameState)
    (hinv : InventoryBound s) : InventoryBound (discardPowerUp playerId powerUpIndex s) := by
  unfold discardPowerUp
  rcases hf : s.players.findIdx? (fun p => p.id == playerId) with _ | i <;> simp only [hf]
  · exact hinv
  · rcases hget : s.players[i]? with _ | player <;> simp only [hget]
    · exact hinv
    · split
      · exact hinv
      · have hmem : player ∈ s.players := by
          exact List.getElem?_mem hget
        have hsp : ∀ pc, InventoryBound { s with
            players := s.players.set i
              { player with powerUps := player.powerUps.eraseIdx powerUpIndex.toNat },
            pendingPowerUpCollection := pc } := by
          intro pc q hq
          exact inventoryBound_set s.players i player _ hinv
            (le_trans (length_eraseIdx_le _ _) (hinv player hmem)) q hq
        rcases hpend : s.pendingPowerUpCollection with _ | pending <;> simp only [hpend]
        · exact hsp s.pendingPowerUpCollection
        · intro q hq
          exact collectPowerUp_inv pending.position pending.playerId _
            (hsp (some pending)) q hq

theorem spawnPowerUpOnBoard_players (pu : PowerUp) (position : Int) (s : GameState) :
    (spawnPowerUpOnBoard pu position s).players = s.players := rfl

theorem activatePowerUp_inv (stealRand : ℚ) (pid : String) (idx : Int)
    (tt : Option String) (tp : Option Int) (tpl : Option String) (tdv : Option Int)
    (s : GameState) (hinv : InventoryBound s) :
    InventoryBound (activatePowerUp stealRand pid idx tt tp tpl tdv s) := by
  unfold activatePowerUp
  split
  · exact hinv
  split
  · exact hinv
  rcases hf : s.players.findIdx? (fun p => p.id == pid) with _ | playerIndex <;> simp only [hf]
  · exact hinv
  rcases hget : s.players[playerIndex]? with _ | player <;> simp only [hget]
  · exact hinv
  rcases hpu : jsGet player.powerUps idx with _ | powerUp <;> simp only [hpu]
  · exact hinv
  have hple : player.powerUps.length ≤ 3 := hinv player (List.getElem?_mem hget)
  cases hty : powerUp.type <;> simp only [hty]
  case STEAL_POWERUP =>
    rcases tpl with _ | tpid
    · exact hinv
    · rcases htf : s.players.findIdx? (fun p => p.id == tpid) with _ | targetPlayerIndex <;>
        simp only [htf]
      · exact hinv
      · by_cases hne : targetPlayerIndex ≠ playerIndex
        · rw [if_pos hne]
          rcases htg : s.players[targetPlayerIndex]? with _ | targetPlayer <;> simp only [htg]
          · exact hinv
          · by_cases hlen : targetPlayer.powerUps.length > 0
            · rw [if_pos hlen]
              have h1 : ∀ (k : Nat) p,
                  p ∈ s.players.set targetPlayerIndex
                    { targetPlayer with powerUps := targetPlayer.powerUps.eraseIdx k } →
                  p.powerUps.length ≤ 3 := fun k =>
                inventoryBound_set s.players targetPlayerIndex targetPlayer _ hinv
                  (le_trans (length_eraseIdx_le _ _)
                    (hinv targetPlayer (List.getElem?_mem htg)))
              have h2 : ∀ (k : Nat) p,
                  p ∈ (s.players.set targetPlayerIndex
                    { targetPlayer with powerUps := targetPlayer.powerUps.eraseIdx k }).set
                      playerIndex { player with powerUps := player.powerUps.eraseIdx idx.toNat } →
                  p.powerUps.length ≤ 3 := fun k =>
                inventoryBound_set _ playerIndex player _ (h1 k)
                  (le_trans (length_eraseIdx_le _ _) hple)
              intro q hq
              dsimp only at hq
              rw [List.set_set] at hq
              exact h2 _ q hq
            · rw [if_neg hlen]
              exact hinv
        · rw [if_neg hne]
          exact hinv
  all_goals repeat' split
  all_goals
    first
      | exact hinv
      | (intro q hq
         exact inventoryBound_set s.players _ player _ hinv
           (le_trans (length_eraseIdx_le _ _) hple) q hq)

theorem finishMove_inv (shuffle : List Int → List Int) (gen : Nat → PowerUp)
    (cpid : String) (s1 : GameState) (nt : List Token) (b : Bool)
    (h : InventoryBound s1) : InventoryBound (finishMove shuffle gen cpid s1 nt b) := by
  intro q hq
  rw [finishMove_players] at hq
  exact h q hq

theorem inventoryBound_ite (c : Prop) [Decidable c] (A B : GameState)
    (hA : InventoryBound A) (hB : InventoryBound B) :
    InventoryBound (if c then A else B) := by
  split
  · exact hA
  · exact hB

theorem moveToken_inv (shuffle : List Int → List Int) (gen : Nat → PowerUp)
    (tid : String) (s : GameState) (hinv : InventoryBound s) :
    InventoryBound (moveToken shuffle gen tid s) := by
  unfold moveToken
  rcases hg : getToken s.tokens tid with _ | token <;>
    rcases hd : s.diceRoll with _ | roll <;> simp -zeta only [hg, hd]
  · exact hinv
  · exact hinv
  · exact hinv
  rcases hcur : jsGet s.players s.currentPlayerIndex with _ | currentPlayer <;>
    simp -zeta only [hcur]
  · exact hinv
  refine inventoryBound_ite _ _ _ hinv ?_
  refine inventoryBound_ite _ _ _ hinv ?_
  rcases hst : token.status <;> simp -zeta only [hst]
  · exact inventoryBound_ite _ _ _ (finishMove_inv _ _ _ _ _ _ hinv) hinv
  · refine inventoryBound_ite _ _ _ ?_ ?_
    · exact inventoryBound_ite _ _ _ (finishMove_inv _ _ _ _ _ _ hinv)
        (finishMove_inv _ _ _ _ _ _ hinv)
    · refine finishMove_inv _ _ _ _ _ _ ?_
      exact inventoryBound_ite _ _ _ (collectPowerUp_inv _ _ _ hinv) hinv
  · exact inventoryBound_ite _ _ _ (finishMove_inv _ _ _ _ _ _ hinv)
      (finishMove_inv _ _ _ _ _ _ hinv)
  · exact finishMove_inv _ _ _ _ _ _ hinv

/-- Claim C3: in every state reachable from the store's initial state by the
engine's commands (initGame, the two roll commands, moveToken, nextTurn,
activatePowerUp — including STEAL_POWERUP — collectPowerUp, discardPowerUp,
spawnPowerUpOnBoard and respawnPowerUps), every player's power-up inventory
holds at most 3 entries.  The guard in `collectPowerUp` blocks a 4th entry and
the STEAL_POWERUP branch, which appends without a bound check, has its
appended inventory overwritten by the shared `used` tail. -/
theorem C3_inventory_bound (s : GameState) (h : Reachable s) :
    ∀ p ∈ s.players, p.powerUps.length ≤ 3 := by
  induction h with
  | initial => intro p hp; cases hp
  | init shuffle gen playerCount _ _ _ _ => exact initGame_inv shuffle gen playerCount _
  | roll u _ _ _ ih =>
      intro p hp
      rw [setDiceRoll_players] at hp
      exact ih p hp
  | rollValue v _ ih =>
      intro p hp
      rw [setDiceRollValue_players] at hp
      exact ih p hp
  | move shuffle gen tid _ _ _ ih => exact moveToken_inv shuffle gen tid _ ih
  | next shuffle gen _ _ _ ih =>
      intro p hp
      rw [nextTurn_players] at hp
      exact ih p hp
  | activate stealRand pid idx tt tp tpl tdv _ _ _ ih =>
      exact activatePowerUp_inv stealRand pid idx tt tp tpl tdv _ ih
  | collect pos pid _ ih => exact collectPowerUp_inv pos pid _ ih
  | discard pid idx _ ih => exact discardPowerUp_inv pid idx _ ih
  | spawn r rid pos _ _ ih =>
      intro p hp
      rw [spawnPowerUpOnBoard_players] at hp
      exact ih p hp
  | respawn shuffle gen _ _ _ ih =>
      intro p hp
      rw [respawnPowerUps_players] at hp
      exact ih p hp

/-- Witness for `C3_inventory_bound`: the freshly initialised 4-player game is
reachable and its first player's inventory is within the bound. -/
theorem C3_witness :
    ({ id := "p0", name := "Player 1", color := "#FF0000",
       powerUps := [] } : Player).powerUps.length ≤ 3 :=
  C3_inventory_bound (initGame idShuffle teleportGen 4 initialState)
    (Reachable.init idShuffle teleportGen 4 Reachable.initial idShuffle_isShuffler
      teleportGen_isGen)
    _ (by decide)
